import Mathlib

/-!
# Pensieve: Teams content script (`src/extension/src/teams/content.js`)

A shallow embedding of the message-change polling loop, the DOM reader
`getLastMessage` and the suggestion presenter `createSuggestedReply`,
together with the properties established about them.

Module-level JavaScript variables become fields of `Script`; the awaited
collaborators (credential store, HTTP endpoint) become an explicit outcome
value; console output and notifications become a list of `Effect`s.
-/

namespace Pensieve

/-! ## JavaScript values -/

/-- Values taken by `lastKnownMessage` and by the expression `currentMessage?.text`:
`null`, `undefined` or a string. -/
inductive JSText where
  | null
  | undefined
  | str (s : String)
  deriving DecidableEq, Repr

/-- JavaScript loose equality `==` on null / undefined / string operands:
`null` and `undefined` are equal to each other and to nothing else, two strings
are equal when they are the same sequence of characters. -/
def JSText.looseEq : JSText → JSText → Bool
  | .str a, .str b => decide (a = b)
  | .str _, _ => false
  | _, .str _ => false
  | _, _ => true

/-- An error object thrown at run time, with its `message`. -/
structure JSError where
  message : String
  deriving DecidableEq, Repr

/-- The object returned by `getLastMessage` (content.js lines 203-207). -/
structure Observation where
  text : String
  isFromCurrentUser : Bool
  timestamp : Nat
  deriving DecidableEq, Repr

/-- The expression `currentMessage?.text`. -/
def optText : Option Observation → JSText
  | none => .undefined
  | some o => .str o.text

/-- The expression `!currentMessage?.isFromCurrentUser`; `!undefined` is `true`. -/
def notFromCurrentUser : Option Observation → Bool
  | none => true
  | some o => !o.isFromCurrentUser

/-- The expression `!lastMessage?.text` of `retrieveMemories` (line 217):
`undefined` and the empty string are falsy. -/
def noText : Option Observation → Bool
  | none => true
  | some o => decide (o.text = "")

/-! ## Effects, timers and module state -/

/-- Observable output of the script: console lines and notifications. -/
inductive Effect where
  /-- Line 553: `Starting message change monitoring`. -/
  | logStarting
  /-- Line 579: `Stopping message change monitoring`. -/
  | logStopping
  /-- Line 656: `URL changed, state reset and message monitoring restarted`. -/
  | logUrlChanged
  /-- Line 567: `Message changed, retrieving memories`. -/
  | logMessageChanged
  /-- Line 212: `Retrieving memories...`, the first statement of `retrieveMemories`. -/
  | logRetrieving
  /-- Line 224: the context sent to the endpoint. -/
  | logContext (context : String)
  /-- Lines 246, 572: `console.error` with the caught error. -/
  | logError (message : String)
  /-- Line 274: `console.warn`. -/
  | logWarn (message : String)
  /-- Call of `showNotification(message, type)`. -/
  | notify (message : String) (type : String)
  /-- Line 235: the call of `auth.makeRequest` with the query `q`. -/
  | request (q : String)
  /-- Line 243: `injectMemories(memories)` was entered. -/
  | inject
  deriving DecidableEq, Repr

/-- Handle returned by `setInterval`. Handles are integers greater than zero,
so a handle is always truthy; `n` numbers them from zero. -/
structure TimerId where
  n : Nat
  deriving DecidableEq, Repr

/-- The two repeating callbacks registered by the script. -/
inductive Callback where
  /-- The async arrow function of lines 561-575. -/
  | poll
  /-- The arrow function of lines 646-658. -/
  | urlWatch
  deriving DecidableEq, Repr

/-- Module-level state of the content script together with the repeating timers
of the page context. -/
structure Script where
  lastMemoryRetrievalTime : Nat
  autoRetrievalTimer : Option TimerId
  lastKnownMessage : JSText
  currentUrl : String
  /-- Active repeating timers, most recent first. -/
  intervals : List (TimerId × Callback)
  /-- Number of handles issued so far. -/
  issued : Nat
  deriving DecidableEq, Repr

/-- The browser call `setInterval(cb, _)`: registers `cb` under a fresh handle. -/
def setInterval (s : Script) (cb : Callback) : TimerId × Script :=
  (⟨s.issued⟩, { s with intervals := (⟨s.issued⟩, cb) :: s.intervals, issued := s.issued + 1 })

/-- The browser call `clearInterval(id)`. -/
def clearInterval (s : Script) (id : TimerId) : Script :=
  { s with intervals := s.intervals.filter (fun p => !decide (p.1 = id)) }

/-- Handles of the active poll timers. -/
def activePolls (s : Script) : List TimerId :=
  (s.intervals.filter (fun p => decide (p.2 = Callback.poll))).map Prod.fst

/-! ## Retrieval (lines 211-249) -/

/-- How the collaborators awaited by `retrieveMemories` turn out. -/
inductive Outcome where
  /-- Line 229: `getStoredAuth` reports `isAuthenticated: false`. -/
  | unauthenticated
  /-- Line 235: `auth.makeRequest` rejects (credential expired, or `fetch` fails). -/
  | networkException (message : String)
  /-- Line 237: a response whose `ok` flag is false. -/
  | httpStatus (status : Nat)
  /-- Line 241: `response.json()` rejects. -/
  | badBody (message : String)
  /-- Line 243: `injectMemories` throws after the answer was received. -/
  | injectFailed (message : String)
  /-- The answer was received and injected. -/
  | success
  deriving DecidableEq, Repr

/-- Effects of the `try` block of `retrieveMemories` (lines 227-248). Every
exception is caught at line 245 and turned into an error notification. -/
def retrieveAttempt (context : String) : Outcome → List Effect
  | .unauthenticated => [.notify "Please sign in first" "error"]
  | .networkException m =>
      [.request context, .logError m, .notify ("Error: " ++ m) "error"]
  | .httpStatus c =>
      [.request context, .logError ("HTTP " ++ toString c),
        .notify ("Error: " ++ ("HTTP " ++ toString c)) "error"]
  | .badBody m =>
      [.request context, .logError m, .notify ("Error: " ++ m) "error"]
  | .injectFailed m =>
      [.request context, .notify "Retrieved answers" "success", .inject,
        .logError m, .notify ("Error: " ++ m) "error"]
  | .success =>
      [.request context, .notify "Retrieved answers" "success", .inject]

/-- The async function `retrieveMemories`. `read` is the result of its own call of
`getLastMessage()` (line 214); the returned `Except` tells whether the promise
resolves or rejects. Notifications are recorded as effects: the page the script runs
in has a `body` for `showNotification` to append to. -/
def retrieveMemories (read : Except JSError (Option Observation)) (env : Outcome) :
    List Effect × Except JSError Unit :=
  match read with
  | .error e => ([.logRetrieving], .error e)
  | .ok lastMessage =>
    if noText lastMessage then
      ([.logRetrieving, .notify "No last message for memory retrieval" "warning"], .ok ())
    else
      let context := match lastMessage with
        | some o => o.text
        | none => ""
      (.logRetrieving :: .logContext context :: .notify "Retrieving memories..." "info" ::
        retrieveAttempt context env, .ok ())

/-- Number of times `retrieveMemories` was entered in a trace. -/
def invocations (fx : List Effect) : Nat :=
  fx.count Effect.logRetrieving

/-! ## Poll loop (lines 552-585) -/

/-- The condition of line 566:
`lastKnownMessage != currentMessage?.text && !currentMessage?.isFromCurrentUser`. -/
def changeCheck (lastKnownMessage : JSText) (currentMessage : Option Observation) : Bool :=
  !(lastKnownMessage.looseEq (optText currentMessage)) && notFromCurrentUser currentMessage

/-- One run of the poll callback (lines 561-575), from its start to the end of its
body. `read` is the result of `getLastMessage()`; the call made inside
`retrieveMemories` happens in the same synchronous step, on the same page, and so
has the same result. -/
def pollTick (s : Script) (read : Except JSError (Option Observation)) (env : Outcome) :
    Script × List Effect :=
  match read with
  | .error e =>
      (s, [.logError e.message, .notify ("Auto-retrieval error: " ++ e.message) "error"])
  | .ok currentMessage =>
    if changeCheck s.lastKnownMessage currentMessage then
      match retrieveMemories read env with
      | (fx, .ok ()) =>
          ({ s with lastKnownMessage := optText currentMessage }, .logMessageChanged :: fx)
      | (fx, .error e) =>
          (s, .logMessageChanged :: fx ++
            [.logError e.message, .notify ("Auto-retrieval error: " ++ e.message) "error"])
    else (s, [])

/-- The function `startAutoRetrieval` (lines 552-576). -/
def startAutoRetrieval (s : Script) : Script × List Effect :=
  let s1 := match s.autoRetrievalTimer with
    | some id => clearInterval s id
    | none => s
  let (id, s2) := setInterval s1 Callback.poll
  ({ s2 with autoRetrievalTimer := some id }, [.logStarting])

/-- The function `stopAutoRetrieval` (lines 578-585). -/
def stopAutoRetrieval (s : Script) : Script × List Effect :=
  let s1 := match s.autoRetrievalTimer with
    | some id => { clearInterval s id with autoRetrievalTimer := none }
    | none => s
  ({ s1 with lastKnownMessage := .null }, [.logStopping])

/-- One run of the URL watcher callback (lines 646-658); `href` is
`window.location.href`. -/
def urlWatchTick (s : Script) (href : String) : Script × List Effect :=
  if href ≠ s.currentUrl then
    let s1 := { s with currentUrl := href, lastMemoryRetrievalTime := 0,
                       lastKnownMessage := .null }
    let (s2, fx2) := stopAutoRetrieval s1
    let (s3, fx3) := startAutoRetrieval s2
    (s3, fx2 ++ fx3 ++ [.logUrlChanged])
  else (s, [])

/-- Module state after the top-level statements of the script have run.
`loading` tells whether `document.readyState` was `loading` (the poll loop then
starts later, on `DOMContentLoaded`); `href` is the address at that time. -/
def scriptStart (loading : Bool) (href : String) : Script :=
  let s0 : Script :=
    { lastMemoryRetrievalTime := 0, autoRetrievalTimer := none, lastKnownMessage := .null,
      currentUrl := href, intervals := [], issued := 0 }
  let s1 := if loading then s0 else (startAutoRetrieval s0).1
  (setInterval s1 Callback.urlWatch).2

/-! ## The page: nodes, selectors, queries -/

/-- The child nodes of a node, in document order, in first-child / next-sibling form:
`text data next` is a text node followed by its later siblings, `elem tag attrs
children next` an element with its attributes and child nodes, followed by its later
siblings. A page is the child list of the `document` node. -/
inductive Dom where
  | nil
  | text (data : String) (next : Dom)
  | elem (tag : String) (attrs : List (String × String)) (children : Dom) (next : Dom)
  deriving DecidableEq, Repr

/-- An element taken on its own: tag name, attributes, child nodes. -/
structure Element where
  tag : String
  attrs : List (String × String)
  children : Dom
  deriving DecidableEq, Repr

/-- The selectors used by the script. -/
inductive Selector where
  /-- `[name="value"]`. -/
  | attrEq (name value : String)
  /-- `[name*="value"]`. -/
  | attrContains (name value : String)
  /-- `.name`. -/
  | cls (name : String)
  /-- A type selector such as `div`. -/
  | tag (name : String)
  /-- `#name`. -/
  | id (name : String)
  deriving DecidableEq, Repr

/-- Whether `needle` is an initial segment of `hay`. -/
def startsWith : List Char → List Char → Bool
  | [], _ => true
  | _ :: _, [] => false
  | a :: as, b :: bs => decide (a = b) && startsWith as bs

/-- Whether `needle` occurs in `hay` as a contiguous run. -/
def occursIn (needle : List Char) : List Char → Bool
  | [] => startsWith needle []
  | c :: cs => startsWith needle (c :: cs) || occursIn needle cs

/-- ASCII whitespace, which separates the names of a `class` attribute. -/
def isAsciiSpace (c : Char) : Bool :=
  c.toNat = 32 || c.toNat = 9 || c.toNat = 10 || c.toNat = 12 || c.toNat = 13

/-- The names listed in a `class` attribute value; `cur` is the name being read,
reversed. -/
def classNames : List Char → List Char → List (List Char)
  | [], cur => if cur = [] then [] else [cur.reverse]
  | c :: cs, cur =>
    if isAsciiSpace c then
      (if cur = [] then classNames cs [] else cur.reverse :: classNames cs [])
    else classNames cs (c :: cur)

/-- `element.matches(selector)` for one simple selector. -/
def Element.test (e : Element) : Selector → Bool
  | .attrEq name value => decide (e.attrs.lookup name = some value)
  | .attrContains name value =>
    match e.attrs.lookup name with
    | some v => decide (value ≠ "") && occursIn value.data v.data
    | none => false
  | .cls name =>
    match e.attrs.lookup "class" with
    | some v => decide (name.data ∈ classNames v.data [])
    | none => false
  | .tag name => decide (e.tag = name)
  | .id name => decide (e.attrs.lookup "id" = some name)

/-- The elements of a node list and of their subtrees that satisfy `p`, in document
order: `querySelectorAll`, scoped to the descendants of a node. -/
def Dom.selectAll (p : Element → Bool) : Dom → List Element
  | .nil => []
  | .text _ next => next.selectAll p
  | .elem t a cs next =>
    (if p ⟨t, a, cs⟩ then [⟨t, a, cs⟩] else []) ++ (cs.selectAll p ++ next.selectAll p)

/-- The call `querySelector`: the first match in document order, or `null`. -/
def Dom.select (p : Element → Bool) (d : Dom) : Option Element :=
  (d.selectAll p).head?

/-- The `parentElement` of the first element satisfying `p`; the outer `none` means
that nothing satisfies `p`, the inner one that the match has no parent element. -/
def Dom.parentOfFirst (p : Element → Bool) : Dom → Option Element → Option (Option Element)
  | .nil, _ => none
  | .text _ next, parent => next.parentOfFirst p parent
  | .elem t a cs next, parent =>
    if p ⟨t, a, cs⟩ then some parent
    else match cs.parentOfFirst p (some ⟨t, a, cs⟩) with
      | some r => some r
      | none => next.parentOfFirst p parent

/-- The property `textContent` of a node list: the data of all text nodes below it,
in document order. -/
def Dom.textContent : Dom → String
  | .nil => ""
  | .text data next => data ++ next.textContent
  | .elem _ _ cs next => cs.textContent ++ next.textContent

/-- White space and line terminators, the code points removed by
`String.prototype.trim`. -/
def isJsSpace (c : Char) : Bool :=
  c.toNat = 9 || c.toNat = 10 || c.toNat = 11 || c.toNat = 12 || c.toNat = 13 ||
  c.toNat = 32 || c.toNat = 160 || c.toNat = 5760 ||
  (8192 ≤ c.toNat && c.toNat ≤ 8202) || c.toNat = 8232 || c.toNat = 8233 ||
  c.toNat = 8239 || c.toNat = 8287 || c.toNat = 12288 || c.toNat = 65279

/-- The method `String.prototype.trim`. -/
def jsTrim (s : String) : String :=
  ⟨((s.data.dropWhile isJsSpace).reverse.dropWhile isJsSpace).reverse⟩

/-! ## Reading the last message (lines 104-208) -/

/-- The constant `SELECTORS.messageContainer`. -/
def messageContainer : Selector := .attrEq "data-tid" "conversation-pane"

/-- The constant `SELECTORS.messageBubble`. -/
def messageBubble : Selector := .attrEq "data-tid" "chat-pane-message"

/-- The constant `SELECTORS.messageContent`. -/
def messageContent : Selector := .cls "ui-chat__message__body"

/-- The array `alternatives` of lines 114-124. -/
def alternatives : List Selector :=
  [.attrEq "data-tid" "chat-pane-list", .attrEq "data-tid" "virtualized-list",
   .attrEq "data-tid" "chat-pane", .attrEq "data-tid" "message-list",
   .attrEq "role" "log", .attrEq "role" "main", .cls "ui-chat__messagelist",
   .cls "ts-message-list", .cls "messages-container"]

/-- The selector list of line 140:
`[data-tid*="message"], [class*="message"], [role="listitem"]`. -/
def messageRelated : List Selector :=
  [.attrContains "data-tid" "message", .attrContains "class" "message",
   .attrEq "role" "listitem"]

/-- The array `contentSelectors` of lines 172-182. -/
def contentSelectors : List Selector :=
  [.cls "message-body", .attrEq "data-tid" "message-body", .cls "ui-chat__message__body",
   .cls "ts-message-body", .attrEq "data-tid" "message-content", .cls "content",
   .tag "p", .tag "div", .tag "span"]

/-- The loop of lines 126-135: `container` is reassigned with each selector in turn
until one query returns an element. -/
def findAlternative (doc : Dom) : List Selector → Option Element
  | [] => none
  | sel :: rest =>
    match doc.select (fun e => e.test sel) with
    | some c => some c
    | none => findAlternative doc rest

/-- Lines 108-155: the message container, or `null`. -/
def findContainer (doc : Dom) : Option Element :=
  match doc.select (fun e => e.test messageContainer) with
  | some c => some c
  | none =>
    match findAlternative doc alternatives with
    | some c => some c
    | none =>
      match doc.parentOfFirst (fun e => messageRelated.any e.test) none with
      | some parent => parent
      | none => none

/-- The loop of lines 184-192: `content` is reassigned with each selector in turn; the
loop is left early only at an element whose text is not blank, so that after a full
pass `content` is whatever the last selector returned. -/
def contentLoop (lastMessage : Element) : List Selector → Option Element → Option Element
  | [], content => content
  | sel :: rest, _ =>
    match lastMessage.children.select (fun e => e.test sel) with
    | some c =>
      if jsTrim c.children.textContent ≠ "" then some c
      else contentLoop lastMessage rest (some c)
    | none => contentLoop lastMessage rest none

/-- Lines 166-195: the value of `content` after the primary query and the loop. -/
def findContent (lastMessage : Element) : Option Element :=
  match lastMessage.children.select (fun e => e.test messageContent) with
  | some c => some c
  | none => contentLoop lastMessage contentSelectors none

/-- Line 195: the value of `text`. When `content.textContent` is empty the source
falls back to `content.innerText`, which then holds at most the line breaks and tabs
that layout produces; it is taken as empty here, the value being used only through
`trim`. -/
def extractText (lastMessage : Element) : String :=
  match findContent lastMessage with
  | some c => c.children.textContent
  | none => lastMessage.children.textContent

/-- The function `getLastMessage`; `now` is `Date.now()`. Reading `innerHTML` of
`undefined` (line 164) throws a `TypeError`. -/
def getLastMessage (doc : Dom) (now : Nat) : Except JSError (Option Observation) :=
  match findContainer doc with
  | none => .ok none
  | some container =>
    match (container.children.selectAll (fun e => e.test messageBubble)).getLast? with
    | none => .error ⟨"Cannot read properties of undefined (reading 'innerHTML')"⟩
    | some lastMessage =>
      let text := extractText lastMessage
      if jsTrim text = "" then .ok none
      else .ok (some
        { text := jsTrim text,
          isFromCurrentUser :=
            (lastMessage.children.select
              (fun e => e.test (.attrEq "data-tid" "message-from-me"))).isSome,
          timestamp := now })

/-- The poll callback run on a page: `getLastMessage()` reads `doc`. -/
def pollTickOn (s : Script) (doc : Dom) (now : Nat) (env : Outcome) : Script × List Effect :=
  pollTick s (getLastMessage doc now) env

/-- The text extraction as the specification words it: the text of the primary content
element if it exists; otherwise the text of the first element, in the order of the
fallback selectors, whose text is not blank; otherwise the raw text of the message
element. -/
def referenceText (lastMessage : Element) : String :=
  match lastMessage.children.select (fun e => e.test messageContent) with
  | some c => c.children.textContent
  | none =>
    match (contentSelectors.filterMap
        (fun sel => lastMessage.children.select (fun e => e.test sel))).find?
        (fun c => decide (jsTrim c.children.textContent ≠ "")) with
    | some c => c.children.textContent
    | none => lastMessage.children.textContent

/-- The result the specification words for a last message element: `null` exactly when
the reference text is blank, otherwise that text trimmed. -/
def referenceResult (lastMessage : Element) : Option String :=
  if jsTrim (referenceText lastMessage) = "" then none
  else some (jsTrim (referenceText lastMessage))

/-! ## Presenting a suggestion (lines 261-418, 516-549) -/

/-- The method `remove()` applied to the first element satisfying `p`, in document
order; the page is unchanged when there is none. -/
def Dom.removeFirst (p : Element → Bool) : Dom → Dom
  | .nil => .nil
  | .text data next => .text data (next.removeFirst p)
  | .elem t a cs next =>
    if p ⟨t, a, cs⟩ then next
    else if (cs.select p).isSome then .elem t a (cs.removeFirst p) next
    else .elem t a cs (next.removeFirst p)

/-- The call `target.parentNode.insertBefore(new, target)` where `target` is the first
element satisfying `p`: `new` becomes the sibling just before it. -/
def Dom.insertBeforeFirst (p : Element → Bool) (new : Element) : Dom → Dom
  | .nil => .nil
  | .text data next => .text data (next.insertBeforeFirst p new)
  | .elem t a cs next =>
    if p ⟨t, a, cs⟩ then .elem new.tag new.attrs new.children (.elem t a cs next)
    else if (cs.select p).isSome then .elem t a (cs.insertBeforeFirst p new) next
    else .elem t a cs (next.insertBeforeFirst p new)

/-- Whether the first element satisfying `p` is a child of the `document` node itself,
that is, has no parent element. -/
def Dom.firstIsTop (p : Element → Bool) : Dom → Bool
  | .nil => false
  | .text _ next => next.firstIsTop p
  | .elem t a cs next =>
    if p ⟨t, a, cs⟩ then true
    else if (cs.select p).isSome then false
    else next.firstIsTop p

/-- The call `appendChild(new)` on the node whose child list this is. -/
def Dom.append (new : Element) : Dom → Dom
  | .nil => .elem new.tag new.attrs new.children .nil
  | .text data next => .text data (next.append new)
  | .elem t a cs next => .elem t a cs (next.append new)

/-- The call `appendChild(new)` on the first element of a child list whose tag
satisfies `isTarget`; `none` when there is no such element. -/
def Dom.appendIn (isTarget : String → Bool) (new : Element) : Dom → Option Dom
  | .nil => none
  | .text data next => (next.appendIn isTarget new).map (Dom.text data)
  | .elem t a cs next =>
    if isTarget t then some (.elem t a (cs.append new) next)
    else (next.appendIn isTarget new).map (Dom.elem t a cs)

/-- The call `appendChild(new)` on `document.head` or `document.body`: the first child
with a suitable tag of the document element, when that is an `html` element; `none`
when the property is `null`. -/
def Dom.appendInHtml (isTarget : String → Bool) (new : Element) : Dom → Option Dom
  | .nil => none
  | .text data next => (next.appendInHtml isTarget new).map (Dom.text data)
  | .elem t a cs next =>
    if t = "html" then (cs.appendIn isTarget new).map (fun cs2 => Dom.elem t a cs2 next)
    else none

/-- The table `colors` of lines 517-522. -/
def notificationColor (type : String) : String :=
  if type = "info" then "#0078d4"
  else if type = "success" then "#107c10"
  else if type = "warning" then "#f7630c"
  else if type = "error" then "#d13438"
  else "undefined"

/-- The element built by `showNotification` (lines 524-539). -/
def notificationElement (message type : String) : Element :=
  { tag := "div",
    attrs := [("style", "position: fixed; top: 20px; right: 20px; background: " ++
      notificationColor type ++ "; color: white; padding: 12px 20px; border-radius: 4px; " ++
      "font-family: 'Segoe UI', sans-serif; font-size: 14px; z-index: 10000; " ++
      "box-shadow: 0 4px 8px rgba(0,0,0,0.2); max-width: 300px;")],
    children := .text ("[Pensieve] " ++ message) .nil }

/-- The function `showNotification` on a page: the banner is appended to
`document.body`; with no body the property access throws a `TypeError`. -/
def showNotification (page : Dom) (message type : String) : Except JSError Dom :=
  match page.appendInHtml (fun t => t = "body" || t = "frameset")
      (notificationElement message type) with
  | some page2 => .ok page2
  | none => .error ⟨"Cannot read properties of null (reading 'appendChild')"⟩

/-- The selector `#pensieve-suggestion`, as a test on elements. -/
def isSuggestion (e : Element) : Bool :=
  e.test (.id "pensieve-suggestion")

/-- Number of elements of a node list, subtrees included, whose `id` is
`pensieve-suggestion`. -/
def suggestionCount (d : Dom) : Nat :=
  (d.selectAll isSuggestion).length

/-- The three selectors of lines 269-271, in the order of the `||` chain. -/
def composeSelectors : List Selector :=
  [.attrEq "data-tid" "message-compose-box", .cls "ck-editor",
   .attrEq "contenteditable" "true"]

/-- The `||` chain of lines 269-271: the first selector whose query returns an
element, `none` when `composeArea` is `null`. -/
def findCompose (page : Dom) : List Selector → Option Selector
  | [] => none
  | sel :: rest =>
    if (page.select (fun e => e.test sel)).isSome then some sel
    else findCompose page rest

/-- The `style` element of lines 297-359; the style sheet text is cosmetic and
abridged to its rule names. -/
def stylesElement : Element :=
  { tag := "style", attrs := [("id", "pensieve-styles")],
    children := .text ("@keyframes slideIn; .pensieve-suggestion-text; .pensieve-buttons; " ++
      ".pensieve-btn; .pensieve-btn-primary; .pensieve-btn-secondary; .pensieve-close") .nil }

/-- The element `suggestionContainer` (lines 280-293, 363-380). `rendered` is the node
list the HTML parser builds from the template string assigned to `innerHTML`, which
embeds the suggestion text. -/
def suggestionContainer (rendered : Dom) : Element :=
  { tag := "div",
    attrs := [("id", "pensieve-suggestion"),
      ("style", "margin: 8px 0; padding: 12px; " ++
        "background: linear-gradient(135deg, #f0f8ff 0%, #e6f3ff 100%); " ++
        "border: 1px solid #0078d4; border-radius: 8px; " ++
        "font-family: 'Segoe UI', sans-serif; font-size: 14px; " ++
        "box-shadow: 0 2px 8px rgba(0,120,212,0.1); position: relative; " ++
        "animation: slideIn 0.3s ease-out;")],
    children := rendered }

/-- What the template of lines 363-380 parses to when the suggestion text parses to
the nodes `body` and closes every element it opens; `sources` is
`fullMemories.sources.length`. -/
def renderTemplate (body : Dom) (sources : Nat) : Dom :=
  .text "\n        "
  (.elem "button" [("class", "pensieve-close"), ("title", "Dismiss")] (.text "Ã—" .nil)
  (.text "\n        "
  (.elem "div" [("class", "pensieve-suggestion-text")]
    (.text "\n            "
    (.elem "strong" [] (.text "ðŸ’¡ Pensieve Suggestion:" .nil)
    (.elem "br" [] .nil body)))
  (.text "\n        "
  (.elem "div" [("class", "pensieve-buttons")]
    (.text "\n            "
    (.elem "button" [("class", "pensieve-btn pensieve-btn-primary"), ("id", "use-suggestion")]
      (.text "\n                Use This Reply\n            " .nil)
    (.text "\n            "
    (.elem "button" [("class", "pensieve-btn pensieve-btn-secondary"), ("id", "view-details")]
      (.text "\n                View Details\n            " .nil)
    (.text "\n            "
    (.elem "span" [("style", "color: #605e5c; font-size: 11px; margin-left: auto;")]
      (.text ("\n                Based on " ++ toString sources ++
        " relevant memories\n            ") .nil)
    (.text "\n        " .nil)))))))
  (.text "\n    " .nil))))))

/-- Outcome of `createSuggestedReply`: the page it leaves, its console and
notification output, and whether it returned or threw. -/
structure Presented where
  page : Dom
  effects : List Effect
  result : Except JSError Unit

/-- Lines 263-266: an existing suggestion, the first element with the anchor id, is
removed. -/
def retireSuggestion (page : Dom) : Dom :=
  match page.select isSuggestion with
  | some _ => page.removeFirst isSuggestion
  | none => page

/-- Lines 296-361: the style sheet is appended to `document.head` unless an element
`#pensieve-styles` exists; `none` when `document.head` is `null`, where the source
throws. -/
def installStyles (page : Dom) : Option Dom :=
  if (page.select (fun e => e.test (.id "pensieve-styles"))).isSome then some page
  else page.appendInHtml (fun t => t = "head") stylesElement

/-- The first element of a child list whose tag satisfies `isTarget`. -/
def Dom.firstChildWith (isTarget : String → Bool) : Dom → Option Element
  | .nil => none
  | .text _ next => next.firstChildWith isTarget
  | .elem t a cs next =>
    if isTarget t then some ⟨t, a, cs⟩ else next.firstChildWith isTarget

/-- The getters `document.head` and `document.body`: the first child with a suitable
tag of the document element, when that is an `html` element, else `null`. -/
def Dom.htmlChild (isTarget : String → Bool) : Dom → Option Element
  | .nil => none
  | .text _ next => next.htmlChild isTarget
  | .elem t _ cs _ => if t = "html" then cs.firstChildWith isTarget else none

/-- The getter `document.body`. -/
def documentBody (page : Dom) : Option Element :=
  page.htmlChild (fun t => t = "body" || t = "frameset")

/-- All elements of a node list and of their subtrees, in document order. -/
def Dom.elements (d : Dom) : List Element :=
  d.selectAll (fun _ => true)

/-- The function `createSuggestedReply` (lines 261-418) up to its return; the
auto-dismiss timer of lines 408-417 fires later. `sources` is
`fullMemories.sources.length`, or `none` when `fullMemories.sources` is `undefined`:
the template literal of lines 363-380 then throws a `TypeError` at line 377. `rendered`
is the node list the HTML parser builds from the template string. Inserting an element
into the `document` node, which already has its one element child, throws. -/
def createSuggestedReply (page : Dom) (sources : Option Nat) (rendered : Dom) : Presented :=
  let page1 := retireSuggestion page
  match findCompose page1 composeSelectors with
  | none =>
    let fx := [Effect.logWarn "Could not find compose area for suggested reply",
      Effect.notify "Could not create suggested reply" "warning"]
    match showNotification page1 "Could not create suggested reply" "warning" with
    | .ok page2 => ⟨page2, fx, .ok ()⟩
    | .error e => ⟨page1, fx, .error e⟩
  | some sel =>
    match installStyles page1 with
    | none => ⟨page1, [], .error ⟨"Cannot read properties of null (reading 'appendChild')"⟩⟩
    | some page2 =>
      match sources with
      | none =>
        ⟨page2, [], .error ⟨"Cannot read properties of undefined (reading 'length')"⟩⟩
      | some _ =>
        if page2.firstIsTop (fun e => e.test sel) then
          ⟨page2, [], .error ⟨"Only one element on document allowed."⟩⟩
        else
          let page3 :=
            page2.insertBeforeFirst (fun e => e.test sel) (suggestionContainer rendered)
          if (rendered.select (fun e => e.test (.id "use-suggestion"))).isSome &&
              (rendered.select (fun e => e.test (.id "view-details"))).isSome &&
              (rendered.select (fun e => e.test (.cls "pensieve-close"))).isSome then
            ⟨page3, [], .ok ()⟩
          else
            ⟨page3, [],
              .error ⟨"Cannot read properties of null (reading 'addEventListener')"⟩⟩

/-- The page `after` is the page `before` with the element `new` inserted as the
sibling just before an occurrence of the element `target`. -/
inductive InsertedBefore (new target : Element) : Dom → Dom → Prop where
  | here (next : Dom) :
      InsertedBefore new target (.elem target.tag target.attrs target.children next)
        (.elem new.tag new.attrs new.children
          (.elem target.tag target.attrs target.children next))
  | afterText (data : String) (before after : Dom) :
      InsertedBefore new target before after →
      InsertedBefore new target (.text data before) (.text data after)
  | inside (t : String) (a : List (String × String)) (before after next : Dom) :
      InsertedBefore new target before after →
      InsertedBefore new target (.elem t a before next) (.elem t a after next)
  | afterElem (t : String) (a : List (String × String)) (cs before after : Dom) :
      InsertedBefore new target before after →
      InsertedBefore new target (.elem t a cs before) (.elem t a cs after)

/-! ## Sample pages -/

/-- A page with a conversation pane that holds no message bubble. -/
def emptyPanePage : Dom :=
  .elem "html" []
    (.elem "head" [] .nil
    (.elem "body" []
      (.elem "div" [("data-tid", "conversation-pane")]
        (.elem "div" [("class", "placeholder")] (.text "No conversation yet" .nil) .nil)
      .nil) .nil)) .nil

/-- A message bubble whose text "Hello" is a direct child, followed by an empty
`span`. -/
def helloBubble : Element :=
  { tag := "div", attrs := [("data-tid", "chat-pane-message")],
    children := .text "Hello" (.elem "span" [] .nil .nil) }

/-- A page whose conversation pane holds `helloBubble` as its last message. -/
def helloPage : Dom :=
  .elem "html" []
    (.elem "head" [] .nil
    (.elem "body" []
      (.elem "div" [("data-tid", "conversation-pane")]
        (.elem helloBubble.tag helloBubble.attrs helloBubble.children .nil)
      .nil) .nil)) .nil

/-- A page with a suggestion on display above the compose box. -/
def composePage : Dom :=
  .elem "html" []
    (.elem "head" [] .nil
    (.elem "body" []
      (.elem "div" [("id", "pensieve-suggestion")] (.text "earlier suggestion" .nil)
      (.elem "div" [("data-tid", "message-compose-box")] .nil .nil)) .nil)) .nil

/-- What the template parses to for the answer
`<i id="pensieve-suggestion"></i>` with one source. -/
def markupRendered : Dom :=
  renderTemplate
    (.text "\n            Based on our conversation history: "
    (.elem "i" [("id", "pensieve-suggestion")] .nil (.text "\n        " .nil))) 1

/-- What the template parses to for the answer `See you at noon.` with two sources. -/
def plainRendered : Dom :=
  renderTemplate
    (.text "\n            Based on our conversation history: See you at noon.\n        " .nil) 2

/-- A page without a `body` element and without a compose area. -/
def bodilessPage : Dom :=
  .elem "html" [] (.elem "head" [] .nil .nil) .nil

/-- A page without a `head` element, with a compose box. -/
def headlessPage : Dom :=
  .elem "html" []
    (.elem "body" [] (.elem "div" [("data-tid", "message-compose-box")] .nil .nil) .nil) .nil

/-- A page whose document element is itself editable. -/
def editableRootPage : Dom :=
  .elem "html" [("contenteditable", "true")]
    (.elem "head" [] .nil (.elem "body" [] (.text "draft" .nil) .nil)) .nil

/-! ## The message listener (lines 630-642) -/

/-- An object passed to `sendResponse`. -/
structure Reply where
  ok : Bool
  error : Option String
  timestamp : Option Nat
  deriving DecidableEq, Repr

/-- What one run of the `chrome.runtime.onMessage` listener does. -/
structure Handled where
  /-- Whether the listener returned `true`; otherwise it returned `undefined`. -/
  returnedTrue : Bool
  /-- Replies sent before the listener returned. -/
  replies : List Reply
  /-- Replies sent afterwards, from the `then` / `catch` callbacks. -/
  laterReplies : List Reply
  effects : List Effect
  deriving DecidableEq, Repr

/-- The listener of lines 630-642. `type` is `msg?.type` when that is a string; `read`
and `env` are what `retrieveMemories` meets, `now` is `Date.now()`. -/
def onMessage (type : Option String) (now : Nat)
    (read : Except JSError (Option Observation)) (env : Outcome) : Handled :=
  if type = some "PING" then
    { returnedTrue := false, replies := [⟨true, none, some now⟩], laterReplies := [],
      effects := [] }
  else if type = some "RETRIEVE_MEMORIES_FOR_CONTEXT" then
    match retrieveMemories read env with
    | (fx, .ok ()) =>
      { returnedTrue := true, replies := [], laterReplies := [⟨true, none, none⟩],
        effects := fx }
    | (fx, .error e) =>
      { returnedTrue := true, replies := [],
        laterReplies := [⟨false, some e.message, none⟩],
        effects := fx ++ [.logError e.message] }
  else { returnedTrue := false, replies := [], laterReplies := [], effects := [] }

/-! ## Poll callbacks that overlap -/

/-- A poll callback suspended at `await retrieveMemories()` (line 568), while the
retrieval waits for the credential store or the endpoint. It holds the
`currentMessage` read at line 563 and the `context` of line 222. -/
structure InFlight where
  currentMessage : Option Observation
  context : String
  deriving DecidableEq, Repr

/-- How far a poll callback gets before the page context runs anything else. -/
inductive Begun where
  /-- The callback ran to its end. -/
  | finished (s : Script) (fx : List Effect)
  /-- The callback is suspended with its retrieval in flight; the module state is
  as it was. -/
  | suspended (p : InFlight) (fx : List Effect)
  deriving DecidableEq, Repr

/-- The poll callback from the timer firing to its first suspension: lines 563-568
and, inside `retrieveMemories`, lines 212-228. When `retrieveMemories` returns at
line 219 its promise is already resolved and the callback finishes before any other
timer callback can start. -/
def tickBegin (s : Script) (read : Except JSError (Option Observation)) : Begun :=
  match read with
  | .error e =>
      .finished s
        [.logError e.message, .notify ("Auto-retrieval error: " ++ e.message) "error"]
  | .ok currentMessage =>
    if changeCheck s.lastKnownMessage currentMessage then
      if noText currentMessage then
        .finished { s with lastKnownMessage := optText currentMessage }
          [.logMessageChanged, .logRetrieving,
            .notify "No last message for memory retrieval" "warning"]
      else
        let context := match currentMessage with
          | some o => o.text
          | none => ""
        .suspended ⟨currentMessage, context⟩
          [.logMessageChanged, .logRetrieving, .logContext context,
            .notify "Retrieving memories..." "info"]
    else .finished s []

/-- The rest of a suspended poll callback, run on the module state of that moment:
the retrieval settles with `env` (lines 228-248) and line 569 assigns
`lastKnownMessage`. -/
def tickResume (s : Script) (p : InFlight) (env : Outcome) : Script × List Effect :=
  ({ s with lastKnownMessage := optText p.currentMessage }, retrieveAttempt p.context env)

/-- The poll loop with its suspended callbacks. -/
structure Loop where
  script : Script
  /-- Suspended poll callbacks, oldest first. -/
  inFlight : List InFlight
  trace : List Effect
  deriving DecidableEq, Repr

/-- What can happen next in the poll loop. -/
inductive Event where
  /-- The poll timer fires and a callback starts, `getLastMessage()` giving `read`. -/
  | fire (read : Except JSError (Option Observation))
  /-- The retrieval of the suspended callback number `i` settles with `env` and that
  callback resumes. -/
  | settle (i : Nat) (env : Outcome)
  /-- The URL watcher callback runs with `window.location.href = href`; suspended
  poll callbacks are not cancelled. -/
  | urlCheck (href : String)

/-- One event of the poll loop. -/
def Loop.step (l : Loop) : Event → Loop
  | .fire read =>
    match tickBegin l.script read with
    | .finished s fx => { l with script := s, trace := l.trace ++ fx }
    | .suspended p fx => { l with inFlight := l.inFlight ++ [p], trace := l.trace ++ fx }
  | .settle i env =>
    match l.inFlight[i]? with
    | none => l
    | some p =>
      { script := (tickResume l.script p env).1, inFlight := l.inFlight.eraseIdx i,
        trace := l.trace ++ (tickResume l.script p env).2 }
  | .urlCheck href =>
    { l with script := (urlWatchTick l.script href).1,
             trace := l.trace ++ (urlWatchTick l.script href).2 }

/-- A sequence of events of the poll loop. -/
def Loop.run (l : Loop) : List Event → Loop
  | [] => l
  | e :: es => (l.step e).run es

/-- The schedule without overlap: each callback's retrieval settles before the timer
fires again. -/
def sequentialEvents : List (Except JSError (Option Observation) × Outcome) → List Event
  | [] => []
  | (read, env) :: rest => .fire read :: .settle 0 env :: sequentialEvents rest

/-- The entry points that change the module state. -/
inductive Op where
  /-- A call of `startAutoRetrieval()`. -/
  | start
  /-- A call of `stopAutoRetrieval()`. -/
  | stop
  /-- A run of the URL watcher callback with `window.location.href = href`. -/
  | urlCheck (href : String)
  /-- A run of the poll callback. -/
  | tick (read : Except JSError (Option Observation)) (env : Outcome)

/-- One entry point applied to the module state. -/
def step (s : Script) : Op → Script × List Effect
  | .start => startAutoRetrieval s
  | .stop => stopAutoRetrieval s
  | .urlCheck href => urlWatchTick s href
  | .tick read env => pollTick s read env

/-- A sequence of entry points run one after the other, with the joint trace. -/
def run (s : Script) : List Op → Script × List Effect
  | [] => (s, [])
  | op :: ops =>
    let r := step s op
    let r2 := run r.1 ops
    (r2.1, r.2 ++ r2.2)

/-- Sequential poll ticks, one per input; the result lists, tick by tick, how many
times `retrieveMemories` was entered. -/
def tickCounts (s : Script) : List (Observation × Outcome) → List Nat
  | [] => []
  | (o, env) :: rest =>
    let r := pollTick s (.ok (some o)) env
    invocations r.2 :: tickCounts r.1 rest

/-- Number of addresses in `hrefs`, read one per watcher run, that differ from the
address read just before (`url` for the first). -/
def detectedChanges (url : String) : List String → Nat
  | [] => 0
  | h :: rest => (if h ≠ url then 1 else 0) + detectedChanges h rest

/-! ## Properties of the poll loop -/

theorem invocations_retrieveAttempt (c : String) (env : Outcome) :
    invocations (retrieveAttempt c env) = 0 := by
  cases env <;> simp [invocations, retrieveAttempt]

theorem retrieveMemories_resolves (m : Option Observation) (env : Outcome) :
    (retrieveMemories (.ok m) env).2 = .ok () := by
  simp only [retrieveMemories]
  split <;> rfl

theorem invocations_retrieveMemories (m : Option Observation) (env : Outcome) :
    invocations (retrieveMemories (.ok m) env).1 = 1 := by
  simp only [retrieveMemories]
  split
  · simp [invocations]
  · have h := invocations_retrieveAttempt
    simp only [invocations] at h ⊢
    simp [h]

theorem pollTick_ok (s : Script) (m : Option Observation) (env : Outcome) :
    pollTick s (.ok m) env =
      if changeCheck s.lastKnownMessage m then
        ({ s with lastKnownMessage := optText m },
          Effect.logMessageChanged :: (retrieveMemories (.ok m) env).1)
      else (s, []) := by
  have h := retrieveMemories_resolves m env
  unfold pollTick
  simp only
  split
  · generalize retrieveMemories (.ok m) env = r at h ⊢
    obtain ⟨fx, res⟩ := r
    simp only at h
    subst h
    rfl
  · rfl

theorem changeCheck_some (l : JSText) (o : Observation) :
    changeCheck l (some o) = true ↔
      (o.isFromCurrentUser = false ∧ JSText.str o.text ≠ l) := by
  cases l with
  | null => simp [changeCheck, JSText.looseEq, optText, notFromCurrentUser]
  | undefined => simp [changeCheck, JSText.looseEq, optText, notFromCurrentUser]
  | str a =>
    simp only [changeCheck, JSText.looseEq, optText, notFromCurrentUser, Bool.and_eq_true,
      Bool.not_eq_true', decide_eq_false_iff_not, ne_eq, JSText.str.injEq]
    constructor
    · rintro ⟨h1, h2⟩
      exact ⟨h2, fun h => h1 h.symm⟩
    · rintro ⟨h1, h2⟩
      exact ⟨fun h => h2 h.symm, h1⟩

theorem invocations_pollTick (s : Script) (m : Option Observation) (env : Outcome) :
    invocations (pollTick s (.ok m) env).2 = if changeCheck s.lastKnownMessage m then 1 else 0 := by
  rw [pollTick_ok]
  split
  · have h := invocations_retrieveMemories m env
    simp only [invocations] at h ⊢
    simp [h]
  · rfl

theorem lastKnown_pollTick (s : Script) (m : Option Observation) (env : Outcome) :
    (pollTick s (.ok m) env).1 =
      if changeCheck s.lastKnownMessage m then { s with lastKnownMessage := optText m }
      else s := by
  rw [pollTick_ok]
  split <;> rfl

/-- C1: for every previous `lastKnownMessage` and every non-null observation, the poll
tick enters `retrieveMemories` (exactly once) if and only if the observation is not
flagged as sent by the current user and its text differs from `lastKnownMessage`;
an observation flagged as sent by the current user never triggers, and one that is
not flagged always triggers when `lastKnownMessage` is `null`. -/
theorem tick_invokes_iff_incoming_and_changed (s : Script) (o : Observation) (env : Outcome)
    (text : String) (timestamp : Nat) :
    (invocations (pollTick s (.ok (some o)) env).2 =
      if o.isFromCurrentUser = false ∧ JSText.str o.text ≠ s.lastKnownMessage then 1 else 0) ∧
    invocations (pollTick s (.ok (some ⟨text, true, timestamp⟩)) env).2 = 0 ∧
    invocations (pollTick { s with lastKnownMessage := .null }
      (.ok (some ⟨text, false, timestamp⟩)) env).2 = 1 := by
  refine ⟨?_, ?_, ?_⟩
  · rw [invocations_pollTick]
    by_cases h : changeCheck s.lastKnownMessage (some o) = true
    · rw [if_pos h, if_pos ((changeCheck_some _ _).1 h)]
    · rw [if_neg h, if_neg (fun h2 => h ((changeCheck_some _ _).2 h2))]
  · rw [invocations_pollTick]
    simp [changeCheck, notFromCurrentUser]
  · rw [invocations_pollTick]
    simp [changeCheck, notFromCurrentUser, optText, JSText.looseEq]

/-- C2 (evaluation at the failing input): with `lastKnownMessage = "Hello"` and
`getLastMessage()` returning `null`, the change check of line 566 is true, the tick
enters `retrieveMemories` once and overwrites `lastKnownMessage` with `undefined`;
only for a previous value `null` or `undefined` is the check false. -/
theorem no_observation_after_text_passes_check :
    changeCheck (.str "Hello") none = true ∧
    invocations (pollTick { scriptStart false "https://teams.microsoft.com/" with
        lastKnownMessage := .str "Hello" } (.ok none) Outcome.success).2 = 1 ∧
    (pollTick { scriptStart false "https://teams.microsoft.com/" with
        lastKnownMessage := .str "Hello" } (.ok none) Outcome.success).1.lastKnownMessage
      = .undefined ∧
    changeCheck .null none = false ∧ changeCheck .undefined none = false := by
  refine ⟨by decide, ?_, ?_, by decide, by decide⟩
  · rw [invocations_pollTick]; decide
  · rw [lastKnown_pollTick]; decide

theorem lastKnown_after_incoming (s : Script) (o : Observation) (env : Outcome)
    (h : o.isFromCurrentUser = false) :
    (pollTick s (.ok (some o)) env).1.lastKnownMessage = .str o.text := by
  rw [lastKnown_pollTick]
  by_cases hc : changeCheck s.lastKnownMessage (some o) = true
  · rw [if_pos hc]; rfl
  · rw [if_neg hc]
    by_contra hne
    exact hc ((changeCheck_some _ _).2 ⟨h, fun e => hne e.symm⟩)

theorem tickCounts_length (inputs : List (Observation × Outcome)) :
    ∀ s : Script, (tickCounts s inputs).length = inputs.length := by
  induction inputs with
  | nil => intro s; rfl
  | cons p rest ih =>
    intro s
    obtain ⟨o, env⟩ := p
    simp [tickCounts, ih]

theorem tickCounts_index (inputs : List (Observation × Outcome))
    (hin : ∀ p ∈ inputs, p.1.isFromCurrentUser = false) :
    ∀ (s : Script) (i : Nat), i < inputs.length →
      (tickCounts s inputs)[i]? =
        some (if (match i with
                  | 0 => s.lastKnownMessage
                  | j + 1 => optText ((inputs[j]?).map Prod.fst))
                ≠ optText ((inputs[i]?).map Prod.fst) then 1 else 0) := by
  induction inputs with
  | nil => intro s i hi; simp at hi
  | cons p rest ih =>
    intro s i hi
    obtain ⟨o, env⟩ := p
    have ho : o.isFromCurrentUser = false := hin (o, env) (List.mem_cons_self _ _)
    have hrest : ∀ p ∈ rest, p.1.isFromCurrentUser = false :=
      fun p hp => hin p (List.mem_cons_of_mem _ hp)
    cases i with
    | zero =>
      simp only [tickCounts, List.getElem?_cons_zero, Option.map_some', optText,
        Option.some.injEq]
      rw [invocations_pollTick]
      by_cases hc : changeCheck s.lastKnownMessage (some o) = true
      · rw [if_pos hc, if_pos]
        exact fun e => ((changeCheck_some _ _).1 hc).2 e.symm
      · rw [if_neg hc, if_neg]
        intro hne
        exact hc ((changeCheck_some _ _).2 ⟨ho, fun e => hne e.symm⟩)
    | succ j =>
      have hj : j < rest.length := by simpa using hi
      have h := ih hrest (pollTick s (.ok (some o)) env).1 j hj
      simp only [tickCounts, List.getElem?_cons_succ]
      rw [h]
      cases j with
      | zero =>
        simp only [lastKnown_after_incoming s o env ho, List.getElem?_cons_zero,
          Option.map_some', optText]
      | succ k => simp only [List.getElem?_cons_succ]

/-- C3: incoming observations processed one per tick by sequential ticks, starting
from `lastKnownMessage = null`: tick `i` enters `retrieveMemories` once when it is
the first tick or its text differs from the text of tick `i - 1`, and not at all
otherwise; for "Hello", "Hello", "Hello there" the counts are 1, 0, 1. -/
theorem sequential_ticks_trigger_on_change (s : Script) (inputs : List (Observation × Outcome))
    (hs : s.lastKnownMessage = .null)
    (hin : ∀ p ∈ inputs, p.1.isFromCurrentUser = false)
    (i : Nat) (hi : i < inputs.length) :
    (tickCounts s inputs)[i]? =
      some (if i = 0 ∨ (inputs.map (fun p => p.1.text))[i]? ≠
                       (inputs.map (fun p => p.1.text))[i - 1]? then 1 else 0) := by
  rw [tickCounts_index inputs hin s i hi]
  congr 1
  cases i with
  | zero =>
    obtain ⟨p, hp⟩ : ∃ p, inputs[0]? = some p := ⟨inputs[0], List.getElem?_eq_getElem hi⟩
    simp [hs, hp, optText]
  | succ j =>
    have hj : j < inputs.length := Nat.lt_of_succ_lt hi
    obtain ⟨p, hp⟩ : ∃ p, inputs[j + 1]? = some p := ⟨inputs[j + 1], List.getElem?_eq_getElem hi⟩
    obtain ⟨q, hq⟩ : ∃ q, inputs[j]? = some q := ⟨inputs[j], List.getElem?_eq_getElem hj⟩
    simp only [hp, hq, Option.map_some', optText, ne_eq, JSText.str.injEq, Nat.succ_ne_zero,
      false_or, Nat.add_sub_cancel, List.getElem?_map, Option.some.injEq, Nat.add_eq_zero,
      one_ne_zero, and_false]
    by_cases e : q.1.text = p.1.text
    · rw [if_neg (not_not.2 e), if_neg (not_not.2 e.symm)]
    · rw [if_pos e, if_pos (fun h => e h.symm)]

/-- Witness for C3: the scenario "Hello", "Hello", "Hello there", third tick. -/
theorem sequential_ticks_trigger_on_change_witness :
    (scriptStart false "https://teams.microsoft.com/").lastKnownMessage = .null ∧
    (∀ p ∈ [((⟨"Hello", false, 1⟩ : Observation), Outcome.success),
            (⟨"Hello", false, 2⟩, Outcome.httpStatus 500),
            (⟨"Hello there", false, 3⟩, Outcome.success)], p.1.isFromCurrentUser = false) ∧
    (tickCounts (scriptStart false "https://teams.microsoft.com/")
        [(⟨"Hello", false, 1⟩, Outcome.success), (⟨"Hello", false, 2⟩, Outcome.httpStatus 500),
         (⟨"Hello there", false, 3⟩, Outcome.success)])[2]? = some 1 :=
  ⟨rfl, by decide,
    (sequential_ticks_trigger_on_change _ _ rfl (by decide) 2 (by decide)).trans (by decide)⟩

theorem tickCounts_hello :
    tickCounts (scriptStart false "https://teams.microsoft.com/")
        [(⟨"Hello", false, 1⟩, Outcome.success), (⟨"Hello", false, 2⟩, Outcome.httpStatus 500),
         (⟨"Hello there", false, 3⟩, Outcome.networkException "Failed to fetch")] = [1, 0, 1] := by
  simp only [tickCounts, invocations_pollTick, lastKnown_pollTick]
  decide

/-- C4 (counterexample): from `lastKnownMessage = null`, an observation "Hi" flagged as
sent by the current user followed by an observation "Hi" that is not: the second tick
enters `retrieveMemories`. -/
theorem second_identical_text_can_trigger :
    invocations (pollTick
      (pollTick (scriptStart false "https://teams.microsoft.com/")
        (.ok (some ⟨"Hi", true, 1⟩)) Outcome.success).1
      (.ok (some ⟨"Hi", false, 2⟩)) Outcome.success).2 = 1 := by
  simp only [invocations_pollTick, lastKnown_pollTick]
  decide

/-- C4 (amended): for two consecutive observations with the same text `t`, processed by
two sequential ticks from any starting state, the second tick enters `retrieveMemories`
exactly when the first observation is flagged as sent by the current user, the second
is not, and the starting `lastKnownMessage` differs from `t`; in every other case, in
particular whenever the first observation is incoming, it does not. -/
theorem second_identical_text_invokes_iff (s : Script) (t : String) (f1 f2 : Bool)
    (ts1 ts2 : Nat) (env1 env2 : Outcome) :
    invocations (pollTick (pollTick s (.ok (some ⟨t, f1, ts1⟩)) env1).1
        (.ok (some ⟨t, f2, ts2⟩)) env2).2 =
      if f1 = true ∧ f2 = false ∧ s.lastKnownMessage ≠ .str t then 1 else 0 := by
  rw [invocations_pollTick]
  cases f1 with
  | true =>
    have h1 : changeCheck s.lastKnownMessage (some ⟨t, true, ts1⟩) = false := by
      simp [changeCheck, notFromCurrentUser]
    rw [lastKnown_pollTick, h1]
    simp only [Bool.false_eq_true, if_false, true_and]
    by_cases hc : changeCheck s.lastKnownMessage (some ⟨t, f2, ts2⟩) = true
    · rw [if_pos hc, if_pos]
      exact ⟨((changeCheck_some _ _).1 hc).1, fun e => ((changeCheck_some _ _).1 hc).2 e.symm⟩
    · rw [if_neg hc, if_neg]
      rintro ⟨h2, h3⟩
      exact hc ((changeCheck_some _ _).2 ⟨h2, fun e => h3 e.symm⟩)
  | false =>
    have h1 := lastKnown_after_incoming s ⟨t, false, ts1⟩ env1 rfl
    rw [h1]
    simp [changeCheck, JSText.looseEq, optText]

/-- C5: a tick whose change check is true on an observation leaves the module state
unchanged except for `lastKnownMessage`, which becomes the observed text, whatever the
outcome of the retrieval (success, unauthenticated, network exception, non-OK status);
the timers are untouched, and a following tick observing the same text does not enter
`retrieveMemories`. -/
theorem triggering_tick_records_text (s : Script) (o o2 : Observation) (env env2 : Outcome)
    (hc : changeCheck s.lastKnownMessage (some o) = true) (ht : o2.text = o.text) :
    (pollTick s (.ok (some o)) env).1 = { s with lastKnownMessage := .str o.text } ∧
    (pollTick s (.ok (some o)) env).1.autoRetrievalTimer = s.autoRetrievalTimer ∧
    (pollTick s (.ok (some o)) env).1.intervals = s.intervals ∧
    invocations (pollTick s (.ok (some o)) env).2 = 1 ∧
    invocations (pollTick (pollTick s (.ok (some o)) env).1 (.ok (some o2)) env2).2 = 0 := by
  have h1 : (pollTick s (.ok (some o)) env).1 = { s with lastKnownMessage := .str o.text } := by
    rw [lastKnown_pollTick, if_pos hc]; rfl
  refine ⟨h1, by rw [h1], by rw [h1], ?_, ?_⟩
  · rw [invocations_pollTick, if_pos hc]
  · rw [invocations_pollTick, h1, if_neg]
    intro h2
    exact ((changeCheck_some _ _).1 h2).2 (by rw [ht])

/-- Witness for C5: a first incoming "Hello" whose retrieval fails with HTTP 503. -/
theorem triggering_tick_records_text_witness :
    changeCheck (scriptStart false "https://teams.microsoft.com/").lastKnownMessage
      (some ⟨"Hello", false, 1⟩) = true ∧
    (pollTick (scriptStart false "https://teams.microsoft.com/")
      (.ok (some ⟨"Hello", false, 1⟩)) (Outcome.httpStatus 503)).1.lastKnownMessage
        = .str "Hello" ∧
    invocations (pollTick (pollTick (scriptStart false "https://teams.microsoft.com/")
      (.ok (some ⟨"Hello", false, 1⟩)) (Outcome.httpStatus 503)).1
      (.ok (some ⟨"Hello", false, 2⟩)) Outcome.success).2 = 0 :=
  have h := triggering_tick_records_text (scriptStart false "https://teams.microsoft.com/")
    ⟨"Hello", false, 1⟩ ⟨"Hello", false, 2⟩ (Outcome.httpStatus 503) Outcome.success
    (by decide) rfl
  ⟨by decide, by rw [h.1], h.2.2.2.2⟩

theorem activePolls_clearInterval (s : Script) (id : TimerId) :
    activePolls (clearInterval s id) = (activePolls s).filter (fun x => !decide (x = id)) := by
  simp only [activePolls, clearInterval, List.filter_filter, List.filter_map]
  congr 1
  apply List.filter_congr
  intro p _
  simp [Bool.and_comm]

theorem activePolls_start (s : Script) (h : activePolls s = s.autoRetrievalTimer.toList) :
    activePolls (startAutoRetrieval s).1 = [⟨(startAutoRetrieval s).1.issued - 1⟩] ∧
    (startAutoRetrieval s).1.autoRetrievalTimer = some ⟨(startAutoRetrieval s).1.issued - 1⟩ := by
  cases ht : s.autoRetrievalTimer with
  | none =>
    rw [ht] at h
    simp only [Option.toList] at h
    simp only [startAutoRetrieval, ht, setInterval, activePolls] at h ⊢
    simp [h]
  | some id =>
    rw [ht] at h
    simp only [Option.toList] at h
    have hc := activePolls_clearInterval s id
    rw [h] at hc
    simp only [activePolls, clearInterval, List.filter_cons_of_pos, decide_True, Bool.not_true,
      Bool.false_eq_true, not_false_eq_true, List.filter_cons_of_neg, List.filter_nil] at hc
    simp only [startAutoRetrieval, ht, setInterval, activePolls, clearInterval,
      Nat.add_sub_cancel, decide_True, List.filter_cons_of_pos, List.map_cons, hc, and_self]

theorem activePolls_stop (s : Script) (h : activePolls s = s.autoRetrievalTimer.toList) :
    activePolls (stopAutoRetrieval s).1 = [] := by
  cases ht : s.autoRetrievalTimer with
  | none =>
    rw [ht] at h
    simpa [stopAutoRetrieval, ht, activePolls] using h
  | some id =>
    rw [ht] at h
    simp only [Option.toList] at h
    have hc := activePolls_clearInterval s id
    rw [h] at hc
    simp only [stopAutoRetrieval, ht, activePolls] at hc ⊢
    simp only [clearInterval] at hc ⊢
    simpa using hc

theorem stop_timer (s : Script) : (stopAutoRetrieval s).1.autoRetrievalTimer = none := by
  cases ht : s.autoRetrievalTimer <;> simp [stopAutoRetrieval, ht, clearInterval]

theorem stop_intervals (s : Script) :
    (stopAutoRetrieval s).1.intervals =
      s.intervals.filter (fun p => decide (some p.1 ≠ s.autoRetrievalTimer)) := by
  cases ht : s.autoRetrievalTimer with
  | none => simp [stopAutoRetrieval, ht]
  | some id =>
    simp only [stopAutoRetrieval, ht, clearInterval]
    apply List.filter_congr
    intro p _
    simp

theorem start_lastKnown (s : Script) :
    (startAutoRetrieval s).1.lastKnownMessage = s.lastKnownMessage := by
  cases ht : s.autoRetrievalTimer <;> simp [startAutoRetrieval, ht, setInterval, clearInterval]

theorem urlWatchTick_changed (s : Script) (href : String) (hne : href ≠ s.currentUrl) :
    urlWatchTick s href =
      ((startAutoRetrieval (stopAutoRetrieval
          { s with currentUrl := href, lastMemoryRetrievalTime := 0,
                   lastKnownMessage := .null }).1).1,
        [Effect.logStopping, Effect.logStarting, Effect.logUrlChanged]) := by
  simp only [urlWatchTick, if_pos hne]
  rfl

/-- With no poll callback suspended: `stopAutoRetrieval` leaves
`autoRetrievalTimer = null` and `lastKnownMessage = null`, and removes the timer it held
from the active timers; a tick that runs right after a stop followed by a start, or
right after a URL change handled by the watcher, enters `retrieveMemories` on an
incoming message, whatever text was recorded before. -/
theorem stop_clears_and_restart_retriggers (s : Script) (t : String) (ts : Nat) (env : Outcome)
    (href : String) (hne : href ≠ s.currentUrl) :
    (stopAutoRetrieval s).1.autoRetrievalTimer = none ∧
    (stopAutoRetrieval s).1.lastKnownMessage = .null ∧
    (stopAutoRetrieval s).1.intervals =
      s.intervals.filter (fun p => decide (some p.1 ≠ s.autoRetrievalTimer)) ∧
    invocations (pollTick (startAutoRetrieval (stopAutoRetrieval s).1).1
      (.ok (some ⟨t, false, ts⟩)) env).2 = 1 ∧
    invocations (pollTick (urlWatchTick s href).1 (.ok (some ⟨t, false, ts⟩)) env).2 = 1 := by
  have hnull : ∀ s : Script, (stopAutoRetrieval s).1.lastKnownMessage = .null := by
    intro s; cases ht : s.autoRetrievalTimer <;> simp [stopAutoRetrieval, ht]
  refine ⟨stop_timer s, hnull s, stop_intervals s, ?_, ?_⟩
  · rw [invocations_pollTick, start_lastKnown, hnull]
    rfl
  · rw [invocations_pollTick, urlWatchTick_changed s href hne, start_lastKnown, hnull]
    rfl

theorem inv_start (s : Script) (h : activePolls s = s.autoRetrievalTimer.toList) :
    activePolls (startAutoRetrieval s).1 = (startAutoRetrieval s).1.autoRetrievalTimer.toList := by
  obtain ⟨h1, h2⟩ := activePolls_start s h
  rw [h1, h2]; rfl

theorem inv_stop (s : Script) (h : activePolls s = s.autoRetrievalTimer.toList) :
    activePolls (stopAutoRetrieval s).1 = (stopAutoRetrieval s).1.autoRetrievalTimer.toList := by
  rw [activePolls_stop s h, stop_timer]; rfl

theorem urlWatchTick_spec (s : Script) (href : String)
    (h : activePolls s = s.autoRetrievalTimer.toList) :
    activePolls (urlWatchTick s href).1 = (urlWatchTick s href).1.autoRetrievalTimer.toList ∧
    (urlWatchTick s href).1.currentUrl = href ∧
    (urlWatchTick s href).2 =
      (if href ≠ s.currentUrl then
        [Effect.logStopping, Effect.logStarting, Effect.logUrlChanged] else []) ∧
    (activePolls (urlWatchTick s href).1).length =
      (if href ≠ s.currentUrl then 1 else (activePolls s).length) := by
  by_cases hne : href ≠ s.currentUrl
  · rw [urlWatchTick_changed s href hne, if_pos hne, if_pos hne]
    generalize hs1 : ({ s with currentUrl := href, lastMemoryRetrievalTime := 0,
                               lastKnownMessage := JSText.null } : Script) = s1
    have h1 : activePolls s1 = s1.autoRetrievalTimer.toList := by
      rw [← hs1]; exact h
    have hu : s1.currentUrl = href := by rw [← hs1]
    have h2 := inv_stop _ h1
    have h3 := activePolls_start _ h2
    refine ⟨inv_start _ h2, ?_, rfl, ?_⟩
    · rw [← hu]
      cases ht : s1.autoRetrievalTimer <;>
        simp [startAutoRetrieval, stopAutoRetrieval, ht, setInterval, clearInterval]
    · simp only
      rw [h3.1]; rfl
  · have he : href = s.currentUrl := not_not.1 hne
    simp only [urlWatchTick, if_neg hne]
    exact ⟨h, he.symm, trivial, trivial⟩

theorem pollTick_timers (s : Script) (read : Except JSError (Option Observation))
    (env : Outcome) :
    (pollTick s read env).1.intervals = s.intervals ∧
    (pollTick s read env).1.autoRetrievalTimer = s.autoRetrievalTimer ∧
    (pollTick s read env).1.currentUrl = s.currentUrl := by
  cases read with
  | error e => exact ⟨rfl, rfl, rfl⟩
  | ok m =>
    rw [lastKnown_pollTick]
    split <;> exact ⟨rfl, rfl, rfl⟩

theorem inv_step (s : Script) (op : Op) (h : activePolls s = s.autoRetrievalTimer.toList) :
    activePolls (step s op).1 = (step s op).1.autoRetrievalTimer.toList := by
  cases op with
  | start => exact inv_start s h
  | stop => exact inv_stop s h
  | urlCheck href => exact (urlWatchTick_spec s href h).1
  | tick read env =>
    obtain ⟨h1, h2, _⟩ := pollTick_timers s read env
    simp only [step, activePolls] at h ⊢
    rw [h1, h2]; exact h

theorem inv_run (ops : List Op) :
    ∀ s : Script, activePolls s = s.autoRetrievalTimer.toList →
      activePolls (run s ops).1 = (run s ops).1.autoRetrievalTimer.toList := by
  induction ops with
  | nil => intro s h; exact h
  | cons op rest ih => intro s h; exact ih _ (inv_step s op h)

theorem inv_scriptStart (loading : Bool) (href : String) :
    activePolls (scriptStart loading href) =
      (scriptStart loading href).autoRetrievalTimer.toList := by
  cases loading <;> rfl

theorem getLastD_cons (h d : String) (rest : List String) :
    ((h :: rest).getLast?).getD d = (rest.getLast?).getD h := by
  cases rest with
  | nil => rfl
  | cons a t =>
    rw [List.getLast?_cons_cons]
    cases hl : (a :: t).getLast? with
    | none => simp at hl
    | some x => rfl

theorem run_urlChecks (hrefs : List String) :
    ∀ s : Script, activePolls s = s.autoRetrievalTimer.toList →
      (run s (hrefs.map Op.urlCheck)).2 =
        (List.replicate (detectedChanges s.currentUrl hrefs)
          [Effect.logStopping, Effect.logStarting, Effect.logUrlChanged]).flatten ∧
      (run s (hrefs.map Op.urlCheck)).1.currentUrl = (hrefs.getLast?).getD s.currentUrl ∧
      (activePolls (run s (hrefs.map Op.urlCheck)).1).length =
        (if 0 < detectedChanges s.currentUrl hrefs then 1 else (activePolls s).length) := by
  induction hrefs with
  | nil => intro s _; exact ⟨rfl, rfl, rfl⟩
  | cons h rest ih =>
    intro s hs
    obtain ⟨h1, h2, h3, h4⟩ := urlWatchTick_spec s h hs
    obtain ⟨i1, i2, i3⟩ := ih (urlWatchTick s h).1 h1
    simp only [List.map_cons, run, step, detectedChanges]
    rw [i1, i2, i3, h2, h3, h4, getLastD_cons]
    by_cases hne : h ≠ s.currentUrl
    · have e1 : (if h ≠ s.currentUrl then (1 : Nat) else 0) = 1 := if_pos hne
      have e2 : (if h ≠ s.currentUrl then
          [Effect.logStopping, Effect.logStarting, Effect.logUrlChanged] else []) =
          [Effect.logStopping, Effect.logStarting, Effect.logUrlChanged] := if_pos hne
      have e3 : (if h ≠ s.currentUrl then 1 else (activePolls s).length) = 1 := if_pos hne
      simp only [e1, e2, e3]
      refine ⟨?_, trivial, ?_⟩
      · rw [Nat.add_comm, List.replicate_succ, List.flatten_cons]
      · have : 0 < 1 + detectedChanges h rest := by omega
        simp only [this, if_true]
        split <;> rfl
    · have e1 : (if h ≠ s.currentUrl then (1 : Nat) else 0) = 0 := if_neg hne
      have e2 : (if h ≠ s.currentUrl then
          [Effect.logStopping, Effect.logStarting, Effect.logUrlChanged] else []) = [] :=
        if_neg hne
      have e3 : (if h ≠ s.currentUrl then 1 else (activePolls s).length) =
          (activePolls s).length := if_neg hne
      simp only [e1, e2, e3, Nat.zero_add, List.nil_append, and_self]

/-- C7: in every state reached from script start by calls of `startAutoRetrieval`,
`stopAutoRetrieval`, URL watcher runs and poll ticks, the active poll timers are
exactly the one held in `autoRetrievalTimer` (none when it is `null`), so at most one;
and when the watcher then reads the addresses `hrefs`, detecting `n` changes, the
trace is `n` repetitions of stop, start, "URL changed", `currentUrl` is the last
address read, and exactly one poll timer is active once `n > 0`. -/
theorem single_poll_timer_and_restarts (loading : Bool) (href : String) (ops : List Op)
    (hrefs : List String) :
    activePolls (run (scriptStart loading href) ops).1 =
      (run (scriptStart loading href) ops).1.autoRetrievalTimer.toList ∧
    (activePolls (run (scriptStart loading href) ops).1).length ≤ 1 ∧
    (run (run (scriptStart loading href) ops).1 (hrefs.map Op.urlCheck)).2 =
      (List.replicate (detectedChanges (run (scriptStart loading href) ops).1.currentUrl hrefs)
        [Effect.logStopping, Effect.logStarting, Effect.logUrlChanged]).flatten ∧
    (run (run (scriptStart loading href) ops).1 (hrefs.map Op.urlCheck)).1.currentUrl =
      (hrefs.getLast?).getD (run (scriptStart loading href) ops).1.currentUrl ∧
    (activePolls (run (run (scriptStart loading href) ops).1 (hrefs.map Op.urlCheck)).1).length =
      (if 0 < detectedChanges (run (scriptStart loading href) ops).1.currentUrl hrefs then 1
       else (activePolls (run (scriptStart loading href) ops).1).length) := by
  have hinv := inv_run ops _ (inv_scriptStart loading href)
  obtain ⟨h1, h2, h3⟩ := run_urlChecks hrefs _ hinv
  refine ⟨hinv, ?_, h1, h2, h3⟩
  rw [hinv]
  cases (run (scriptStart loading href) ops).1.autoRetrievalTimer <;> simp [Option.toList]

/-! ## Properties of the page operations -/

theorem select_text (p : Element → Bool) (data : String) (next : Dom) :
    (Dom.text data next).select p = next.select p := rfl

theorem select_elem (p : Element → Bool) (t : String) (a : List (String × String))
    (cs next : Dom) :
    (Dom.elem t a cs next).select p =
      if p ⟨t, a, cs⟩ then some ⟨t, a, cs⟩
      else if (cs.select p).isSome then cs.select p else next.select p := by
  simp only [Dom.select, Dom.selectAll]
  by_cases hp : p ⟨t, a, cs⟩ = true
  · simp [hp]
  · simp only [hp, if_false, List.nil_append, Bool.false_eq_true]
    cases h : cs.selectAll p <;> simp

theorem selectAll_of_select_none (p : Element → Bool) (d : Dom)
    (h : (d.select p).isSome = false) : d.selectAll p = [] := by
  simp only [Dom.select] at h
  cases hl : d.selectAll p with
  | nil => rfl
  | cons x xs => rw [hl] at h; simp at h

theorem selectAll_pos_of_select (p : Element → Bool) (d : Dom)
    (h : (d.select p).isSome = true) : 0 < (d.selectAll p).length := by
  simp only [Dom.select] at h
  cases hl : d.selectAll p with
  | nil => rw [hl] at h; simp at h
  | cons x xs => simp

theorem length_single_if (c : Bool) (x : Element) :
    (if c = true then [x] else []).length = if c = true then 1 else 0 := by
  cases c <;> rfl

theorem test_stable (sel : Selector) (t : String) (a : List (String × String))
    (cs cs2 : Dom) :
    Element.test ⟨t, a, cs⟩ sel = Element.test ⟨t, a, cs2⟩ sel := by
  cases sel <;> rfl

theorem selectAll_removeFirst (p : Element → Bool)
    (hstable : ∀ t a cs cs2, p ⟨t, a, cs⟩ = p ⟨t, a, cs2⟩) (d : Dom) :
    ((d.removeFirst p).selectAll p).length ≤ (d.selectAll p).length - 1 := by
  induction d with
  | nil => simp [Dom.removeFirst, Dom.selectAll]
  | text data next ih => simpa [Dom.removeFirst, Dom.selectAll] using ih
  | elem t a cs next ihc ihn =>
    by_cases hp : p ⟨t, a, cs⟩ = true
    · simp only [Dom.removeFirst, Dom.selectAll, hp, if_true, List.length_append,
        List.length_cons, List.length_nil]
      omega
    · by_cases hs : (cs.select p).isSome = true
      · have hpos := selectAll_pos_of_select p cs hs
        simp only [Dom.removeFirst, Dom.selectAll, hp, hs, if_true, if_false,
          List.length_append, List.length_nil, Bool.false_eq_true,
          hstable t a (cs.removeFirst p) cs]
        omega
      · have hnil := selectAll_of_select_none p cs (by simpa using hs)
        simp only [Dom.removeFirst, Dom.selectAll, hp, hs, if_false, List.length_append,
          List.length_nil, hnil, Bool.false_eq_true]
        omega

theorem selectAll_insertBeforeFirst (q p : Element → Bool)
    (hstable : ∀ t a cs cs2, q ⟨t, a, cs⟩ = q ⟨t, a, cs2⟩) (new : Element) (d : Dom) :
    ((d.insertBeforeFirst p new).selectAll q).length =
      (d.selectAll q).length +
        (if (d.select p).isSome then
          (if q new then 1 else 0) + (new.children.selectAll q).length else 0) := by
  induction d with
  | nil => simp [Dom.insertBeforeFirst, Dom.selectAll, Dom.select]
  | text data next ih => simpa [Dom.insertBeforeFirst, Dom.selectAll, select_text] using ih
  | elem t a cs next ihc ihn =>
    rw [select_elem]
    by_cases hp : p ⟨t, a, cs⟩ = true
    · simp only [Dom.insertBeforeFirst, Dom.selectAll, hp, if_true, List.length_append,
        Option.isSome_some]
      split <;> simp <;> omega
    · by_cases hs : (cs.select p).isSome = true
      · simp only [Dom.insertBeforeFirst, Dom.selectAll, hp, hs, if_true, if_false,
          List.length_append, Bool.false_eq_true, ihc,
          hstable t a (cs.insertBeforeFirst p new) cs, length_single_if]
        omega
      · have hn : (cs.select p).isSome = false := by simpa using hs
        simp only [Dom.insertBeforeFirst, Dom.selectAll, hp, hn, if_false,
          List.length_append, Bool.false_eq_true, ihn]
        split <;> omega

theorem selectAll_append (q : Element → Bool) (new : Element) (d : Dom) :
    ((d.append new).selectAll q).length =
      (d.selectAll q).length + ((if q new then 1 else 0) + (new.children.selectAll q).length) := by
  induction d with
  | nil =>
    simp only [Dom.append, Dom.selectAll, List.length_append, List.length_nil]
    split <;> simp
  | text data next ih => simpa [Dom.append, Dom.selectAll] using ih
  | elem t a cs next _ ihn =>
    simp only [Dom.append, Dom.selectAll, List.length_append, ihn]
    omega

theorem selectAll_appendIn (q : Element → Bool) (f : String → Bool) (new : Element)
    (hq : q new = false) (hc : new.children.selectAll q = []) (d r : Dom)
    (hr : d.appendIn f new = some r)
    (hstable : ∀ t a cs cs2, q ⟨t, a, cs⟩ = q ⟨t, a, cs2⟩) :
    (r.selectAll q).length = (d.selectAll q).length := by
  induction d generalizing r with
  | nil => simp [Dom.appendIn] at hr
  | text data next ih =>
    simp only [Dom.appendIn, Option.map_eq_some'] at hr
    obtain ⟨r2, h2, rfl⟩ := hr
    simpa [Dom.selectAll] using ih r2 h2
  | elem t a cs next _ ihn =>
    simp only [Dom.appendIn] at hr
    by_cases hf : f t = true
    · simp only [hf, if_true, Option.some.injEq] at hr
      subst hr
      have h3 := selectAll_append q new cs
      rw [hq, hc] at h3
      simp only [Dom.selectAll, List.length_append, h3, hstable t a (cs.append new) cs,
        length_single_if]
      simp
    · simp only [hf, if_false, Option.map_eq_some', Bool.false_eq_true] at hr
      obtain ⟨r2, h2, rfl⟩ := hr
      simp only [Dom.selectAll, List.length_append, ihn r2 h2]

theorem selectAll_appendInHtml (q : Element → Bool) (f : String → Bool) (new : Element)
    (hq : q new = false) (hc : new.children.selectAll q = []) (d r : Dom)
    (hr : d.appendInHtml f new = some r)
    (hstable : ∀ t a cs cs2, q ⟨t, a, cs⟩ = q ⟨t, a, cs2⟩) :
    (r.selectAll q).length = (d.selectAll q).length := by
  induction d generalizing r with
  | nil => simp [Dom.appendInHtml] at hr
  | text data next ih =>
    simp only [Dom.appendInHtml, Option.map_eq_some'] at hr
    obtain ⟨r2, h2, rfl⟩ := hr
    simpa [Dom.selectAll] using ih r2 h2
  | elem t a cs next _ _ =>
    simp only [Dom.appendInHtml] at hr
    by_cases ht : t = "html"
    · simp only [ht, if_true, Option.map_eq_some'] at hr
      obtain ⟨cs2, h2, rfl⟩ := hr
      have := selectAll_appendIn q f new hq hc cs cs2 h2 hstable
      simp only [Dom.selectAll, List.length_append, this, hstable "html" a cs2 cs,
        length_single_if, ht]
    · simp [ht] at hr

theorem insertedBefore_insertBeforeFirst (p : Element → Bool) (new area : Element) (d : Dom)
    (h : d.select p = some area) :
    InsertedBefore new area d (d.insertBeforeFirst p new) := by
  induction d with
  | nil => simp [Dom.select, Dom.selectAll] at h
  | text data next ih =>
    rw [select_text] at h
    exact InsertedBefore.afterText data _ _ (ih h)
  | elem t a cs next ihc ihn =>
    rw [select_elem] at h
    by_cases hp : p ⟨t, a, cs⟩ = true
    · simp only [hp, if_true, Option.some.injEq] at h
      subst h
      simp only [Dom.insertBeforeFirst, hp, if_true]
      exact InsertedBefore.here next
    · by_cases hs : (cs.select p).isSome = true
      · simp only [hp, hs, if_true, if_false, Bool.false_eq_true] at h
        simp only [Dom.insertBeforeFirst, hp, hs, if_true, if_false, Bool.false_eq_true]
        exact InsertedBefore.inside t a _ _ next (ihc h)
      · simp only [hp, hs, if_false, Bool.false_eq_true] at h
        simp only [Dom.insertBeforeFirst, hp, hs, if_false, Bool.false_eq_true]
        exact InsertedBefore.afterElem t a cs _ _ (ihn h)

theorem isSuggestion_stable (t : String) (a : List (String × String)) (cs cs2 : Dom) :
    isSuggestion ⟨t, a, cs⟩ = isSuggestion ⟨t, a, cs2⟩ :=
  test_stable _ t a cs cs2

theorem suggestionCount_retire (page : Dom) (h : suggestionCount page ≤ 1) :
    suggestionCount (retireSuggestion page) = 0 := by
  simp only [retireSuggestion]
  cases hs : page.select isSuggestion with
  | none =>
    simp only [suggestionCount]
    rw [selectAll_of_select_none isSuggestion page (by rw [hs]; rfl)]
    rfl
  | some e =>
    have := selectAll_removeFirst isSuggestion isSuggestion_stable page
    simp only [suggestionCount] at h ⊢
    omega

theorem suggestionCount_showNotification (page page2 : Dom) (message type : String)
    (h : showNotification page message type = .ok page2) :
    suggestionCount page2 = suggestionCount page := by
  simp only [showNotification] at h
  cases hr : page.appendInHtml (fun t => t = "body" || t = "frameset")
      (notificationElement message type) with
  | none => rw [hr] at h; cases h
  | some r =>
    rw [hr] at h
    have e : r = page2 := Except.ok.inj h
    rw [← e]
    exact selectAll_appendInHtml isSuggestion _ (notificationElement message type) rfl rfl
      page r hr isSuggestion_stable

theorem selectAll_installStyles (q : Element → Bool)
    (hstable : ∀ t a cs cs2, q ⟨t, a, cs⟩ = q ⟨t, a, cs2⟩)
    (hq : q stylesElement = false) (page page2 : Dom)
    (h : installStyles page = some page2) :
    (page2.selectAll q).length = (page.selectAll q).length := by
  simp only [installStyles] at h
  split at h
  · cases h; rfl
  · exact selectAll_appendInHtml q _ stylesElement hq rfl page page2 h hstable

theorem findCompose_some (page : Dom) (l : List Selector) (sel : Selector)
    (h : findCompose page l = some sel) :
    sel ∈ l ∧ (page.select (fun e => e.test sel)).isSome = true := by
  induction l with
  | nil => simp [findCompose] at h
  | cons x rest ih =>
    simp only [findCompose] at h
    split at h
    · rename_i hx
      cases h
      exact ⟨List.mem_cons_self _ _, hx⟩
    · exact ⟨List.mem_cons_of_mem _ (ih h).1, (ih h).2⟩

theorem compose_not_styles (sel : Selector) (h : sel ∈ composeSelectors) :
    stylesElement.test sel = false := by
  simp only [composeSelectors, List.mem_cons, List.mem_singleton, List.not_mem_nil,
    or_false] at h
  rcases h with rfl | rfl | rfl <;> rfl

theorem createSuggestedReply_page (page rendered : Dom) (sources : Option Nat) :
    (createSuggestedReply page sources rendered).page =
      match findCompose (retireSuggestion page) composeSelectors with
      | none =>
        (match showNotification (retireSuggestion page)
            "Could not create suggested reply" "warning" with
          | .ok page2 => page2
          | .error _ => retireSuggestion page)
      | some sel =>
        match installStyles (retireSuggestion page) with
        | none => retireSuggestion page
        | some page2 =>
          match sources with
          | none => page2
          | some _ =>
            if page2.firstIsTop (fun e => e.test sel) then page2
            else page2.insertBeforeFirst (fun e => e.test sel)
              (suggestionContainer rendered) := by
  simp only [createSuggestedReply]
  split
  · split <;> rfl
  · split
    · rfl
    · split
      · rfl
      · split
        · rfl
        · split <;> rfl

theorem appendIn_isSome (f : String → Bool) (new : Element) (d : Dom) :
    (d.appendIn f new).isSome = (d.firstChildWith f).isSome := by
  induction d with
  | nil => rfl
  | text data next ih => simpa [Dom.appendIn, Dom.firstChildWith] using ih
  | elem t a cs next _ ihn =>
    simp only [Dom.appendIn, Dom.firstChildWith]
    split
    · rfl
    · simpa using ihn

theorem appendInHtml_isSome (f : String → Bool) (new : Element) (d : Dom) :
    (d.appendInHtml f new).isSome = (d.htmlChild f).isSome := by
  induction d with
  | nil => rfl
  | text data next ih => simpa [Dom.appendInHtml, Dom.htmlChild] using ih
  | elem t a cs next _ _ =>
    simp only [Dom.appendInHtml, Dom.htmlChild]
    split
    · simpa using appendIn_isSome f new cs
    · rfl

theorem mem_elements_append (new : Element) (d : Dom) :
    new ∈ (d.append new).elements := by
  induction d with
  | nil => simp [Dom.append, Dom.elements, Dom.selectAll]
  | text data next ih => simpa [Dom.append, Dom.elements, Dom.selectAll] using ih
  | elem t a cs next _ ihn =>
    simp only [Dom.elements] at ihn
    simp [Dom.append, Dom.elements, Dom.selectAll, ihn]

theorem mem_elements_appendIn (f : String → Bool) (new : Element) (d r : Dom)
    (h : d.appendIn f new = some r) : new ∈ r.elements := by
  induction d generalizing r with
  | nil => simp [Dom.appendIn] at h
  | text data next ih =>
    simp only [Dom.appendIn, Option.map_eq_some'] at h
    obtain ⟨r2, h2, rfl⟩ := h
    simpa [Dom.elements, Dom.selectAll] using ih r2 h2
  | elem t a cs next _ ihn =>
    simp only [Dom.appendIn] at h
    by_cases hf : f t = true
    · simp only [hf, if_true, Option.some.injEq] at h
      subst h
      have hm := mem_elements_append new cs
      simp only [Dom.elements] at hm
      simp [Dom.elements, Dom.selectAll, hm]
    · simp only [hf, if_false, Option.map_eq_some', Bool.false_eq_true] at h
      obtain ⟨r2, h2, rfl⟩ := h
      have hm := ihn r2 h2
      simp only [Dom.elements] at hm
      simp [Dom.elements, Dom.selectAll, hm]

theorem mem_elements_appendInHtml (f : String → Bool) (new : Element) (d r : Dom)
    (h : d.appendInHtml f new = some r) : new ∈ r.elements := by
  induction d generalizing r with
  | nil => simp [Dom.appendInHtml] at h
  | text data next ih =>
    simp only [Dom.appendInHtml, Option.map_eq_some'] at h
    obtain ⟨r2, h2, rfl⟩ := h
    simpa [Dom.elements, Dom.selectAll] using ih r2 h2
  | elem t a cs next _ _ =>
    simp only [Dom.appendInHtml] at h
    by_cases ht : t = "html"
    · simp only [ht, if_true, Option.map_eq_some'] at h
      obtain ⟨cs2, h2, rfl⟩ := h
      have hm := mem_elements_appendIn f new cs cs2 h2
      simp only [Dom.elements] at hm
      simp [Dom.elements, Dom.selectAll, hm]
    · simp [ht] at h

theorem showNotification_of_body (page : Dom) (message type : String)
    (h : (documentBody page).isSome = true) :
    ∃ page2, showNotification page message type = .ok page2 ∧
      notificationElement message type ∈ page2.elements := by
  have hs := appendInHtml_isSome (fun t => t = "body" || t = "frameset")
    (notificationElement message type) page
  simp only [documentBody] at h
  rw [h] at hs
  obtain ⟨page2, h2⟩ := Option.isSome_iff_exists.1 hs
  refine ⟨page2, ?_, mem_elements_appendInHtml _ _ _ _ h2⟩
  simp only [showNotification, h2]

theorem suggestionCount_container (rendered : Dom) (sel : Selector) (page2 : Dom) :
    suggestionCount (page2.insertBeforeFirst (fun e => e.test sel)
        (suggestionContainer rendered)) =
      suggestionCount page2 +
        (if (page2.select (fun e => e.test sel)).isSome then 1 + suggestionCount rendered
         else 0) := by
  have h := selectAll_insertBeforeFirst isSuggestion (fun e => e.test sel) isSuggestion_stable
    (suggestionContainer rendered) page2
  have hc : isSuggestion (suggestionContainer rendered) = true := rfl
  simp only [suggestionCount]
  rw [h, hc]
  rfl

/-- C10 (counterexample): on a page with one suggestion and a compose box, an answer whose
markup carries the anchor id leaves two elements with id `pensieve-suggestion`, and an
answer without `sources` leaves none, the old one removed and no new one inserted; on a
page whose document element is the compose area, and on a page without `head`, the
compose area is found and yet nothing is inserted; on a page without `body` and without
a compose area the notification throws and no banner is in the page. -/
theorem suggestion_not_always_single :
    suggestionCount composePage ≤ 1 ∧
    suggestionCount (createSuggestedReply composePage (some 1) markupRendered).page = 2 ∧
    findCompose (retireSuggestion composePage) composeSelectors =
      some (.attrEq "data-tid" "message-compose-box") ∧
    suggestionCount (createSuggestedReply composePage none plainRendered).page = 0 ∧
    (createSuggestedReply composePage none plainRendered).result =
      .error ⟨"Cannot read properties of undefined (reading 'length')"⟩ ∧
    suggestionCount editableRootPage ≤ 1 ∧
    findCompose (retireSuggestion editableRootPage) composeSelectors =
      some (.attrEq "contenteditable" "true") ∧
    suggestionCount (createSuggestedReply editableRootPage (some 2) plainRendered).page = 0 ∧
    suggestionCount headlessPage ≤ 1 ∧
    findCompose (retireSuggestion headlessPage) composeSelectors =
      some (.attrEq "data-tid" "message-compose-box") ∧
    suggestionCount (createSuggestedReply headlessPage (some 2) plainRendered).page = 0 ∧
    suggestionCount bodilessPage ≤ 1 ∧
    findCompose (retireSuggestion bodilessPage) composeSelectors = none ∧
    (createSuggestedReply bodilessPage (some 2) plainRendered).result =
      .error ⟨"Cannot read properties of null (reading 'appendChild')"⟩ ∧
    notificationElement "Could not create suggested reply" "warning" ∉
      (createSuggestedReply bodilessPage (some 2) plainRendered).page.elements := by
  refine ⟨by decide, by rfl, by rfl, by rfl, by rfl, by decide, by rfl, by rfl, by decide,
    by rfl, by rfl, by decide, by rfl, by rfl, by decide⟩

/-- C10 (amended): on a page with at most one element with id `pensieve-suggestion`, and
for rendered suggestion markup that holds no element with that id, `createSuggestedReply`
first leaves no such element, and ends with at most one; when no compose area is found
it ends with none and, the document having a body, the warning banner is in the page
and the call returns; when a compose area is found, the answer carries `sources`, the
style sheet is in place and the area has a parent element, the page ends with exactly
one such element, the new container, inserted as the sibling just before the area. -/
theorem createSuggestedReply_single_suggestion (page rendered : Dom) (sources : Option Nat)
    (h1 : suggestionCount page ≤ 1) (h2 : suggestionCount rendered = 0) :
    suggestionCount (retireSuggestion page) = 0 ∧
    suggestionCount (createSuggestedReply page sources rendered).page ≤ 1 ∧
    (findCompose (retireSuggestion page) composeSelectors = none →
      suggestionCount (createSuggestedReply page sources rendered).page = 0 ∧
      Effect.notify "Could not create suggested reply" "warning" ∈
        (createSuggestedReply page sources rendered).effects ∧
      ((documentBody (retireSuggestion page)).isSome = true →
        notificationElement "Could not create suggested reply" "warning" ∈
          (createSuggestedReply page sources rendered).page.elements ∧
        (createSuggestedReply page sources rendered).result = .ok ())) ∧
    (∀ sel page2, sources.isSome = true →
      findCompose (retireSuggestion page) composeSelectors = some sel →
      installStyles (retireSuggestion page) = some page2 →
      page2.firstIsTop (fun e => e.test sel) = false →
      ∃ area, page2.select (fun e => e.test sel) = some area ∧
        InsertedBefore (suggestionContainer rendered) area page2
          (createSuggestedReply page sources rendered).page ∧
        suggestionCount (createSuggestedReply page sources rendered).page = 1) := by
  have h0 := suggestionCount_retire page h1
  have hstyle : ∀ page2, installStyles (retireSuggestion page) = some page2 →
      suggestionCount page2 = 0 := by
    intro page2 hst
    have := selectAll_installStyles isSuggestion isSuggestion_stable rfl _ _ hst
    simp only [suggestionCount] at h0 ⊢
    omega
  refine ⟨h0, ?_, ?_, ?_⟩
  · rw [createSuggestedReply_page]
    split
    · split
      · rename_i page2 hn
        rw [suggestionCount_showNotification _ _ _ _ hn, h0]
        omega
      · rw [h0]; omega
    · split
      · rw [h0]; omega
      · rename_i sel _ page2 hst
        split
        · rw [hstyle page2 hst]; omega
        · split
          · rw [hstyle page2 hst]; omega
          · rw [suggestionCount_container, hstyle page2 hst, h2]
            split <;> omega
  · intro hfc
    refine ⟨?_, ?_, ?_⟩
    · rw [createSuggestedReply_page, hfc]
      simp only
      split
      · rename_i page2 hn
        rw [suggestionCount_showNotification _ _ _ _ hn, h0]
      · exact h0
    · simp only [createSuggestedReply, hfc]
      split <;> simp
    · intro hbody
      obtain ⟨page2, hn, hmem⟩ := showNotification_of_body (retireSuggestion page)
        "Could not create suggested reply" "warning" hbody
      simp only [createSuggestedReply, hfc, hn]
      exact ⟨hmem, trivial⟩
  · intro sel page2 hsrc hfc hst htop
    obtain ⟨k, hk⟩ := Option.isSome_iff_exists.1 hsrc
    subst hk
    obtain ⟨hmem, hsome⟩ := findCompose_some _ _ _ hfc
    have hcount := selectAll_installStyles (fun e => e.test sel)
      (fun t a cs cs2 => test_stable sel t a cs cs2) (compose_not_styles sel hmem) _ _ hst
    have hpos := selectAll_pos_of_select _ _ hsome
    have hsome2 : (page2.select (fun e => e.test sel)).isSome = true := by
      simp only [Dom.select]
      cases hl : page2.selectAll (fun e => e.test sel) with
      | nil => rw [hl] at hcount; simp at hcount; omega
      | cons x xs => rfl
    obtain ⟨area, harea⟩ := Option.isSome_iff_exists.1 hsome2
    refine ⟨area, harea, ?_, ?_⟩
    · rw [createSuggestedReply_page, hfc]
      simp only [hst, htop, Bool.false_eq_true, if_false]
      exact insertedBefore_insertBeforeFirst _ _ _ _ harea
    · rw [createSuggestedReply_page, hfc]
      simp only [hst, htop, Bool.false_eq_true, if_false]
      rw [suggestionCount_container, hstyle page2 hst, h2, hsome2]
      rfl

/-- Witness for C10: one suggestion on display, a plain-text answer with two sources. -/
theorem createSuggestedReply_single_suggestion_witness :
    suggestionCount composePage ≤ 1 ∧ suggestionCount plainRendered = 0 ∧
    suggestionCount (createSuggestedReply composePage (some 2) plainRendered).page ≤ 1 :=
  ⟨by decide, by decide,
    (createSuggestedReply_single_suggestion composePage plainRendered (some 2)
      (by decide) (by decide)).2.1⟩

/-! ## Properties of the DOM reader -/

theorem getLastMessage_throws_iff (doc : Dom) (now : Nat) :
    (∃ e, getLastMessage doc now = .error e) ↔
      ∃ c, findContainer doc = some c ∧
        c.children.selectAll (fun e => e.test messageBubble) = [] := by
  cases hc : findContainer doc with
  | none => simp [getLastMessage, hc]
  | some c =>
    cases hl : (c.children.selectAll (fun e => e.test messageBubble)).getLast? with
    | none =>
      have hnil : c.children.selectAll (fun e => e.test messageBubble) = [] :=
        List.getLast?_eq_none_iff.1 hl
      simp [getLastMessage, hc, hl, hnil]
    | some m =>
      have hne : c.children.selectAll (fun e => e.test messageBubble) ≠ [] := by
        intro h; rw [h] at hl; simp at hl
      simp only [getLastMessage, hc, hl, Option.some.injEq, exists_eq_left', hne, iff_false,
        not_exists]
      intro e
      split <;> simp

/-- C8 (evaluation at the failing input): on a page whose conversation pane holds no
message bubble the container is found, `getLastMessage` throws a `TypeError` instead of
returning `null`, and the poll tick reports it as an auto-retrieval error. -/
theorem getLastMessage_throws_on_empty_pane :
    (findContainer emptyPanePage).isSome = true ∧
    getLastMessage emptyPanePage 5 =
      .error ⟨"Cannot read properties of undefined (reading 'innerHTML')"⟩ ∧
    pollTickOn (scriptStart false "https://teams.microsoft.com/") emptyPanePage 5
        Outcome.success =
      (scriptStart false "https://teams.microsoft.com/",
        [.logError "Cannot read properties of undefined (reading 'innerHTML')",
         .notify ("Auto-retrieval error: " ++
            "Cannot read properties of undefined (reading 'innerHTML')") "error"]) := by
  refine ⟨by rfl, by rfl, by rfl⟩

theorem getLast_cons_some (x : Selector) (xs : List Selector) :
    ∃ y, (x :: xs).getLast? = some y := by
  cases h : (x :: xs).getLast? with
  | none => simp at h
  | some y => exact ⟨y, rfl⟩

theorem contentLoop_eq (lastMessage : Element) (sels : List Selector) :
    ∀ content : Option Element,
      contentLoop lastMessage sels content =
        match (sels.filterMap
            (fun sel => lastMessage.children.select (fun e => e.test sel))).find?
            (fun c => decide (jsTrim c.children.textContent ≠ "")) with
        | some c => some c
        | none =>
          match sels.getLast? with
          | none => content
          | some sel => lastMessage.children.select (fun e => e.test sel) := by
  induction sels with
  | nil => intro content; rfl
  | cons sel rest ih =>
    intro content
    simp only [contentLoop]
    cases hq : lastMessage.children.select (fun e => e.test sel) with
    | none =>
      simp only [List.filterMap_cons, hq]
      rw [ih none]
      cases rest with
      | nil => simp [hq]
      | cons r rs =>
        obtain ⟨y, hy⟩ := getLast_cons_some r rs
        simp only [List.getLast?_cons_cons, hy]
    | some c =>
      simp only [List.filterMap_cons, hq, List.find?_cons]
      by_cases hb : jsTrim c.children.textContent ≠ ""
      · simp [hb]
      · have hd : decide (jsTrim c.children.textContent ≠ "") = false := by
          simpa using hb
        have he : jsTrim c.children.textContent = "" := not_not.1 hb
        rw [if_neg hb, hd, ih (some c)]
        cases rest with
        | nil => simp [hq]
        | cons r rs =>
          obtain ⟨y, hy⟩ := getLast_cons_some r rs
          simp only [List.getLast?_cons_cons, hy]

/-- The extraction of the source agrees with the worded reference whenever the last
fallback selector, `span`, matches nothing or matches an element whose text is not
blank. -/
theorem extractText_eq_referenceText (lastMessage : Element)
    (h : ∀ c, lastMessage.children.select (fun e => e.test (.tag "span")) = some c →
      jsTrim c.children.textContent ≠ "") :
    extractText lastMessage = referenceText lastMessage := by
  simp only [extractText, referenceText, findContent]
  cases hp : lastMessage.children.select (fun e => e.test messageContent) with
  | some c => rfl
  | none =>
    simp only
    rw [contentLoop_eq]
    cases hf : (contentSelectors.filterMap
        (fun sel => lastMessage.children.select (fun e => e.test sel))).find?
        (fun c => decide (jsTrim c.children.textContent ≠ "")) with
    | some c => rfl
    | none =>
      have hl : contentSelectors.getLast? = some (.tag "span") := rfl
      simp only [hl]
      cases hs : lastMessage.children.select (fun e => e.test (.tag "span")) with
      | none => rfl
      | some c =>
        exfalso
        have hmem : c ∈ contentSelectors.filterMap
            (fun sel => lastMessage.children.select (fun e => e.test sel)) := by
          rw [List.mem_filterMap]
          exact ⟨.tag "span", by simp [contentSelectors], hs⟩
        have := List.find?_eq_none.1 hf c hmem
        simp only [decide_eq_true_eq] at this
        exact this (h c hs)

/-- C9 (evaluation at the failing input): for a message element with the direct text
"Hello" and an empty `span`, no primary content element exists and no fallback has
text, so the worded reference is the raw text "Hello"; the source keeps the empty
`span` returned by the last selector, extracts the empty text and returns `null`. -/
theorem blank_span_hides_message_text :
    helloBubble.children.select (fun e => e.test messageContent) = none ∧
    (contentSelectors.filterMap
        (fun sel => helloBubble.children.select (fun e => e.test sel))).find?
        (fun c => decide (jsTrim c.children.textContent ≠ "")) = none ∧
    helloBubble.children.textContent = "Hello" ∧
    referenceText helloBubble = "Hello" ∧
    referenceResult helloBubble = some "Hello" ∧
    findContent helloBubble = some ⟨"span", [], .nil⟩ ∧
    extractText helloBubble = "" ∧
    getLastMessage helloPage 5 = .ok none := by
  refine ⟨by rfl, by rfl, by rfl, by rfl, by rfl, by rfl, by rfl, by rfl⟩

/-! ## Properties of the message listener -/

theorem onMessage_retrieve_resolved (now : Nat) (m : Option Observation) (env : Outcome) :
    onMessage (some "RETRIEVE_MEMORIES_FOR_CONTEXT") now (.ok m) env =
      { returnedTrue := true, replies := [], laterReplies := [⟨true, none, none⟩],
        effects := (retrieveMemories (.ok m) env).1 } := by
  have h := retrieveMemories_resolves m env
  simp only [onMessage]
  rw [if_pos trivial]
  generalize retrieveMemories (.ok m) env = r at h ⊢
  obtain ⟨fx, res⟩ := r
  simp only at h
  subst h
  rfl

theorem onMessage_retrieve_rejected (now : Nat) (e : JSError) (env : Outcome) :
    onMessage (some "RETRIEVE_MEMORIES_FOR_CONTEXT") now (.error e) env =
      { returnedTrue := true, replies := [],
        laterReplies := [⟨false, some e.message, none⟩],
        effects := [.logRetrieving, .logError e.message] } := by
  simp only [onMessage]
  rw [if_pos trivial]
  rfl

/-- C11 (evaluation at the failing inputs): for a `RETRIEVE_MEMORIES_FOR_CONTEXT`
message the listener returns `true` and sends one reply later, but that reply is
`ok: true` when the retrieval failed as unauthenticated, by a network exception, by a
non-OK HTTP status or for want of a last message, since `retrieveMemories` catches
these itself; `ok: false` is sent only when `getLastMessage` throws. -/
theorem retrieve_now_replies_ok_after_failure :
    onMessage (some "RETRIEVE_MEMORIES_FOR_CONTEXT") 9 (.ok (some ⟨"Hello", false, 9⟩))
        Outcome.unauthenticated =
      { returnedTrue := true, replies := [], laterReplies := [⟨true, none, none⟩],
        effects := [.logRetrieving, .logContext "Hello",
          .notify "Retrieving memories..." "info",
          .notify "Please sign in first" "error"] } ∧
    (onMessage (some "RETRIEVE_MEMORIES_FOR_CONTEXT") 9 (.ok (some ⟨"Hello", false, 9⟩))
        (Outcome.networkException "Failed to fetch")).laterReplies = [⟨true, none, none⟩] ∧
    (onMessage (some "RETRIEVE_MEMORIES_FOR_CONTEXT") 9 (.ok (some ⟨"Hello", false, 9⟩))
        (Outcome.httpStatus 500)).laterReplies = [⟨true, none, none⟩] ∧
    (onMessage (some "RETRIEVE_MEMORIES_FOR_CONTEXT") 9 (.ok none)
        Outcome.success).laterReplies = [⟨true, none, none⟩] ∧
    (onMessage (some "RETRIEVE_MEMORIES_FOR_CONTEXT") 9 (getLastMessage emptyPanePage 9)
        Outcome.success).laterReplies =
      [⟨false, some "Cannot read properties of undefined (reading 'innerHTML')", none⟩] := by
  refine ⟨by rfl, by rfl, by rfl, by rfl, by rfl⟩

/-! ## Properties of overlapping poll callbacks -/

theorem pollTick_eq_begin_resume (s : Script) (read : Except JSError (Option Observation))
    (env : Outcome) :
    pollTick s read env =
      match tickBegin s read with
      | .finished s2 fx => (s2, fx)
      | .suspended p fx => ((tickResume s p env).1, fx ++ (tickResume s p env).2) := by
  cases read with
  | error e => rfl
  | ok m =>
    rw [pollTick_ok]
    simp only [tickBegin]
    by_cases hc : changeCheck s.lastKnownMessage m = true
    · rw [if_pos hc, if_pos hc]
      by_cases hn : noText m = true
      · simp only [retrieveMemories, hn, if_true]
      · simp only [retrieveMemories, hn, if_false, tickResume, Bool.false_eq_true]
        rfl
    · rw [if_neg hc, if_neg hc]

theorem run_fire_settle (s : Script) (tr : List Effect)
    (read : Except JSError (Option Observation)) (env : Outcome) :
    Loop.run ⟨s, [], tr⟩ [.fire read, .settle 0 env] =
      ⟨(pollTick s read env).1, [], tr ++ (pollTick s read env).2⟩ := by
  rw [pollTick_eq_begin_resume]
  simp only [Loop.run, Loop.step]
  cases tickBegin s read with
  | finished s2 fx => rfl
  | suspended p fx => simp [List.append_assoc]

theorem run_sequentialEvents (inputs : List (Except JSError (Option Observation) × Outcome)) :
    ∀ (s : Script) (tr : List Effect),
      Loop.run ⟨s, [], tr⟩ (sequentialEvents inputs) =
        ⟨(run s (inputs.map (fun p => Op.tick p.1 p.2))).1, [],
          tr ++ (run s (inputs.map (fun p => Op.tick p.1 p.2))).2⟩ := by
  induction inputs with
  | nil => intro s tr; simp [sequentialEvents, Loop.run, run]
  | cons p rest ih =>
    intro s tr
    obtain ⟨read, env⟩ := p
    have h := run_fire_settle s tr read env
    simp only [Loop.run] at h
    simp only [sequentialEvents, Loop.run, List.map_cons, run, step]
    rw [h, ih, List.append_assoc]

theorem tickBegin_suspends (s : Script) (o : Observation)
    (hc : changeCheck s.lastKnownMessage (some o) = true) (ht : o.text ≠ "") :
    tickBegin s (.ok (some o)) =
      .suspended ⟨some o, o.text⟩
        [.logMessageChanged, .logRetrieving, .logContext o.text,
          .notify "Retrieving memories..." "info"] := by
  simp only [tickBegin, hc, if_true, noText]
  rw [if_neg (by simpa using ht)]

theorem run_fire_replicate (o : Observation) (ht : o.text ≠ "") (n : Nat) :
    ∀ l : Loop, changeCheck l.script.lastKnownMessage (some o) = true →
      l.run (List.replicate n (.fire (.ok (some o)))) =
        { script := l.script,
          inFlight := l.inFlight ++ List.replicate n ⟨some o, o.text⟩,
          trace := l.trace ++ (List.replicate n
            [Effect.logMessageChanged, Effect.logRetrieving, Effect.logContext o.text,
              Effect.notify "Retrieving memories..." "info"]).flatten } := by
  induction n with
  | zero => intro l _; simp [Loop.run]
  | succ k ih =>
    intro l hc
    simp only [List.replicate_succ, Loop.run, Loop.step, tickBegin_suspends l.script o hc ht]
    have h2 := ih
      { script := l.script, inFlight := l.inFlight ++ [⟨some o, o.text⟩],
        trace := l.trace ++ [Effect.logMessageChanged, Effect.logRetrieving,
          Effect.logContext o.text, Effect.notify "Retrieving memories..." "info"] } hc
    rw [h2]
    simp [List.append_assoc]

theorem inFlight_sequentialEvents
    (inputs : List (Except JSError (Option Observation) × Outcome)) :
    ∀ (s : Script) (tr : List Effect) (k : Nat),
      (Loop.run ⟨s, [], tr⟩ ((sequentialEvents inputs).take k)).inFlight.length ≤ 1 := by
  induction inputs with
  | nil => intro s tr k; simp [sequentialEvents, Loop.run]
  | cons p rest ih =>
    intro s tr k
    obtain ⟨read, env⟩ := p
    match k with
    | 0 => simp [Loop.run]
    | 1 =>
      simp only [sequentialEvents, List.take_succ_cons, List.take_zero, Loop.run, Loop.step]
      cases tickBegin s read <;> simp
    | k + 2 =>
      have h := run_fire_settle s tr read env
      simp only [Loop.run] at h
      simp only [sequentialEvents, List.take_succ_cons, Loop.run]
      rw [h]
      exact ih _ _ k

theorem run_ticks_recorded (o : Observation) (env : Outcome) (n : Nat) :
    ∀ s : Script, s.lastKnownMessage = .str o.text →
      run s (List.replicate n (Op.tick (.ok (some o)) env)) = (s, []) := by
  induction n with
  | zero => intro s _; rfl
  | succ k ih =>
    intro s hs
    have hc : changeCheck s.lastKnownMessage (some o) = false := by
      rw [hs]; simp [changeCheck, JSText.looseEq, optText]
    have h1 : pollTick s (.ok (some o)) env = (s, []) := by
      rw [pollTick_ok, hc]; rfl
    simp only [List.replicate_succ, run, step, h1, ih s hs, List.append_nil]

theorem invocations_append (a b : List Effect) :
    invocations (a ++ b) = invocations a + invocations b := by
  simp [invocations, List.count_append]

theorem invocations_sequential_same (s : Script) (o : Observation) (env : Outcome) (n : Nat)
    (hc : changeCheck s.lastKnownMessage (some o) = true) :
    invocations (Loop.run ⟨s, [], []⟩
        (sequentialEvents (List.replicate n (.ok (some o), env)))).trace =
      if n = 0 then 0 else 1 := by
  rw [run_sequentialEvents]
  simp only [List.map_replicate, List.nil_append]
  cases n with
  | zero => rfl
  | succ k =>
    have hl : (pollTick s (.ok (some o)) env).1.lastKnownMessage = .str o.text := by
      rw [lastKnown_pollTick, if_pos hc]; rfl
    simp only [List.replicate_succ, run, step, run_ticks_recorded o env k _ hl,
      List.append_nil, invocations_pollTick, hc, if_true, Nat.succ_ne_zero, if_false]

/-- C12 (evaluation at the failing input): the poll timer fires twice on the unchanged
incoming message "Hello" before the first retrieval has settled: both callbacks enter
`retrieveMemories` and two retrievals are in flight. -/
theorem overlapping_tick_retrieves_again :
    invocations (Loop.run ⟨scriptStart false "https://teams.microsoft.com/", [], []⟩
      [.fire (.ok (some ⟨"Hello", false, 1⟩)),
       .fire (.ok (some ⟨"Hello", false, 2001⟩))]).trace = 2 ∧
    (Loop.run ⟨scriptStart false "https://teams.microsoft.com/", [], []⟩
      [.fire (.ok (some ⟨"Hello", false, 1⟩)),
       .fire (.ok (some ⟨"Hello", false, 2001⟩))]).inFlight.length = 2 := by
  refine ⟨by decide, by decide⟩

/-- Overlapping and sequential schedules compared. When the timer fires `n` times on a
message that passes the change check while no retrieval has settled, each of the `n`
callbacks enters `retrieveMemories` and `n` retrievals are in flight; when every
retrieval settles before the timer fires again, the loop behaves as sequential ticks,
the same `n` observations cause one retrieval call, and at most one retrieval is in
flight at any time. -/
theorem overlap_unguarded_sequential_single (s : Script) (o : Observation) (env : Outcome)
    (n k : Nat) (inputs : List (Except JSError (Option Observation) × Outcome))
    (hc : changeCheck s.lastKnownMessage (some o) = true) (ht : o.text ≠ "") :
    invocations (Loop.run ⟨s, [], []⟩
      (List.replicate n (.fire (.ok (some o))))).trace = n ∧
    (Loop.run ⟨s, [], []⟩ (List.replicate n (.fire (.ok (some o))))).inFlight.length = n ∧
    invocations (Loop.run ⟨s, [], []⟩
      (sequentialEvents (List.replicate n (.ok (some o), env)))).trace =
        (if n = 0 then 0 else 1) ∧
    Loop.run ⟨s, [], []⟩ (sequentialEvents inputs) =
      ⟨(run s (inputs.map (fun p => Op.tick p.1 p.2))).1, [],
        (run s (inputs.map (fun p => Op.tick p.1 p.2))).2⟩ ∧
    (Loop.run ⟨s, [], []⟩ ((sequentialEvents inputs).take k)).inFlight.length ≤ 1 := by
  have h := run_fire_replicate o ht n ⟨s, [], []⟩ hc
  refine ⟨?_, ?_, invocations_sequential_same s o env n hc, ?_,
    inFlight_sequentialEvents inputs s [] k⟩
  · rw [h]
    simp only [List.nil_append]
    clear h
    induction n with
    | zero => rfl
    | succ m ih =>
      rw [List.replicate_succ, List.flatten_cons, invocations_append, ih]
      simp [invocations]
      omega
  · rw [h]
    simp
  · rw [run_sequentialEvents]
    simp

/-- C6 (evaluation at the failing input): a poll callback reads the incoming "Hello" and
is suspended in its retrieval; the address changes and the watcher runs stop then
start, leaving `lastKnownMessage = null`; the retrieval settles and line 569 writes
"Hello" back; the next tick on the incoming "Hello" does not enter `retrieveMemories`,
so the trace holds the one call made before the restart. With the retrieval settled
before the restart the same tick does enter it. -/
theorem pending_retrieval_undoes_restart :
    (Loop.run ⟨scriptStart false "https://teams.microsoft.com/", [], []⟩
      [.fire (.ok (some ⟨"Hello", false, 1⟩)),
       .urlCheck "https://teams.microsoft.com/v2/"]).script.lastKnownMessage = .null ∧
    (Loop.run ⟨scriptStart false "https://teams.microsoft.com/", [], []⟩
      [.fire (.ok (some ⟨"Hello", false, 1⟩)),
       .urlCheck "https://teams.microsoft.com/v2/",
       .settle 0 Outcome.success]).script.lastKnownMessage = .str "Hello" ∧
    invocations (Loop.run ⟨scriptStart false "https://teams.microsoft.com/", [], []⟩
      [.fire (.ok (some ⟨"Hello", false, 1⟩)),
       .urlCheck "https://teams.microsoft.com/v2/",
       .settle 0 Outcome.success,
       .fire (.ok (some ⟨"Hello", false, 2001⟩))]).trace = 1 ∧
    invocations (Loop.run ⟨scriptStart false "https://teams.microsoft.com/", [], []⟩
      [.fire (.ok (some ⟨"Hello", false, 1⟩)),
       .settle 0 Outcome.success,
       .urlCheck "https://teams.microsoft.com/v2/",
       .fire (.ok (some ⟨"Hello", false, 2001⟩))]).trace = 2 := by
  refine ⟨by decide, by decide, by decide, by decide⟩

end Pensieve
